import Mathlib

/-!
Verification development for the gystify backend core: the priority scoring
engine, the usage-quota state machine, the snapshot generation orchestrator,
the sender registry, the snapshot read path, and the retention sweeper.

Numbers: JS floats are modelled as `ℚ` (all constants involved are exact small
decimals and every comparison uses the same literals, so the branch structure
is unaffected); timestamps as `ℤ` milliseconds; calendar days (the value a JS
`toDateString` comparison distinguishes) as a separate `ℤ` day index.
String primitives (`toUpperCase`, `toLowerCase`, `split`) are given structural
char-level definitions with the same semantics as the library calls, so that
concrete runs reduce.
-/

namespace Gystify

/-- `s.toUpperCase()`: uppercase every character. -/
def strUpper (s : String) : String := ⟨s.data.map Char.toUpper⟩

/-- `s.toLowerCase()`: lowercase every character. -/
def strLower (s : String) : String := ⟨s.data.map Char.toLower⟩

/-- Split a character list at every occurrence of `sep` (JS
`String.prototype.split` with a one-character separator). -/
def splitChars (sep : Char) : List Char → List Char → List (List Char)
  | [], acc => [acc.reverse]
  | c :: rest, acc =>
    if c = sep then acc.reverse :: splitChars sep rest []
    else splitChars sep rest (c :: acc)

/-- `s.split(sep)` for a one-character separator. -/
def jsSplit (s : String) (sep : Char) : List String :=
  (splitChars sep s.data []).map (fun cs => ⟨cs⟩)

/-- One Gmail message-part header (`Schema$MessagePartHeader`): both the name
and the value are optional. -/
structure MessageHeader where
  name : Option String
  value : Option String
deriving Repr, DecidableEq

/-- Result of `calculateEnhancedImportance`. -/
structure ImportanceResult where
  isImportant : Bool
  score : ℚ
  factors : List String
deriving Repr, DecidableEq

/-- `Math.round(x * 100) / 100` (two-decimal rounding; JS `Math.round` is
`⌊x + 1/2⌋`). -/
def round2 (x : ℚ) : ℚ := (⌊x * 100 + 1/2⌋ : ℤ) / 100

/-- `headers.find(h => h.name?.toLowerCase() === name.toLowerCase())?.value`. -/
def findHeader (headers : List MessageHeader) (name : String) : Option String :=
  (headers.find? (fun h => h.name.map strLower == some (strLower name))).bind
    (fun h => h.value)

/-- `xPriority && /^[1-2]/.test(xPriority)`: the header is present and its
first character is `1` or `2`. -/
def xPriorityHigh : Option String → Bool
  | none => false
  | some s => s.data.head? == some '1' || s.data.head? == some '2'

/-- The curated allowlist from `isTrustedDomain` in `email.utils.ts`. -/
def trustedDomains : List String :=
  ["gmail.com", "outlook.com", "hotmail.com", "yahoo.com", "icloud.com",
   "protonmail.com", "google.com", "microsoft.com", "apple.com", "meta.com",
   "facebook.com", "instagram.com", "twitter.com", "x.com", "tiktok.com",
   "snapchat.com", "github.com", "gitlab.com", "stackoverflow.com",
   "atlassian.com", "slack.com", "discord.com", "zoom.us", "notion.so",
   "figma.com", "linkedin.com", "glassdoor.com", "indeed.com", "amazon.com",
   "ebay.com", "etsy.com", "shopify.com", "paypal.com", "stripe.com",
   "square.com", "venmo.com", "cashapp.com", "substack.com", "medium.com",
   "youtube.com", "netflix.com", "spotify.com", "chase.com",
   "bankofamerica.com", "wellsfargo.com", "citi.com", "americanexpress.com",
   "delta.com", "united.com", "american.com", "southwest.com", "expedia.com",
   "booking.com", "airbnb.com", "irs.gov", "usps.com", "fedex.com", "ups.com",
   "dhl.com", "aws.amazon.com", "azure.microsoft.com", "digitalocean.com",
   "heroku.com", "vercel.com", "netlify.com"]

/-- `senderEmail.split('@')[1]?.toLowerCase()` membership in the allowlist. -/
def isTrustedDomain (senderEmail : String) : Bool :=
  match (jsSplit senderEmail '@').get? 1 with
  | none => false
  | some d => trustedDomains.contains (strLower d)

/-- One guarded clamp rule of the scorer: when `cond` holds, apply `f` to the
running score and append the rule's factor tag; otherwise leave the state
unchanged. Each `if (...) { score = ...; factors.push(...) }` block of the
source is one `clampScore` application. -/
def clampScore (cond : Bool) (f : ℚ → ℚ) (tag : String)
    (st : ℚ × List String) : ℚ × List String :=
  if cond then (f st.1, st.2 ++ [tag]) else st

/-- The source's mutually exclusive `else if` chain of category adjustments:
promotions clamp down to 0.3, else updates clamp down to 0.4, else personal
clamps up to 0.7. -/
def categoryAdjust (labels : List String) (st : ℚ × List String) :
    ℚ × List String :=
  if labels.contains "CATEGORY_PROMOTIONS" then
    (min st.1 (3/10), st.2 ++ ["promotional"])
  else if labels.contains "CATEGORY_UPDATES" then
    (min st.1 (4/10), st.2 ++ ["updates"])
  else if labels.contains "CATEGORY_PERSONAL" then
    (max st.1 (7/10), st.2 ++ ["personal"])
  else st

/-- The rule-based importance scorer (`calculateEnhancedImportance` in
`email.utils.ts`, duplicated verbatim in `snapshot.service.ts`): base score
0.5, then clamp rules in source order, then two-decimal rounding. The running
state pairs the score with the accumulated factor list. -/
def calculateEnhancedImportance (labelIds : List String)
    (headers : List MessageHeader) (senderEmail : String)
    (sizeEstimate : ℤ) : ImportanceResult :=
  let labels := labelIds.map strUpper
  let st : ℚ × List String := (1/2, [])
  let st := clampScore (labels.contains "IMPORTANT")
    (fun s => max s 1) "marked-important" st
  let st := clampScore (labels.contains "STARRED")
    (fun s => max s (85/100)) "starred" st
  let st := categoryAdjust labels st
  let importance := (findHeader headers "Importance").map strLower
  let priority := (findHeader headers "Priority").map strLower
  let xPriority := findHeader headers "X-Priority"
  let st := clampScore (importance == some "high" || priority == some "urgent")
    (fun s => max s (8/10)) "high-priority-header" st
  let st := clampScore (xPriorityHigh xPriority)
    (fun s => max s (9/10)) "x-priority-high" st
  let st := clampScore (isTrustedDomain senderEmail)
    (fun s => min (s + 1/10) 1) "trusted-domain" st
  let st := clampScore (decide (50000 < sizeEstimate))
    (fun s => min (s + 1/20) 1) "large-email" st
  { isImportant := decide (6/10 ≤ st.1), score := round2 st.1, factors := st.2 }

/-- Priority labels stored on a snapshot item. -/
inductive PriorityLabel
  | urgent
  | high
  | medium
  | low
deriving Repr, DecidableEq

/-- `scoreToPriorityLabel` from `snapshot.service.ts`. -/
def scoreToPriorityLabel (score : ℚ) : PriorityLabel :=
  if 85/100 ≤ score then .urgent
  else if 7/10 ≤ score then .high
  else if 4/10 ≤ score then .medium
  else .low

abbrev UserId := String

/-- Modelled from the spec: the subscription tier enum (§3, "one of
`free|trial|starter|pro`"); `subscription-plan.entity.ts`, which declares it,
is not among the sources. -/
inductive SubscriptionTier
  | free
  | trial
  | starter
  | pro
deriving Repr, DecidableEq

/-- Modelled from the spec: the static per-tier cap table (§4.3 "Caps are
looked up from a static per-tier table — treat as configuration"); the
`SUBSCRIPTION_PLANS` constant lives in the absent
`subscription-plan.entity.ts`. `maxSnapshotsPerDay = 999` means unlimited and
`totalSnapshotsAllowed` is the trial lifetime cap (`none`/`some 0` are falsy
as in the source's truthiness test). -/
structure PlanLimits where
  maxSnapshotsPerDay : ℕ
  maxEmailsPerSnapshot : ℕ
  totalSnapshotsAllowed : Option ℕ
deriving Repr, DecidableEq

/-- The quota-relevant columns of the `users` table (`user.entity.ts`).
Timestamps are `ℤ` milliseconds; `lastUsageResetDay` holds the calendar-day
index that the source's `toDateString()` comparison distinguishes. -/
structure UserRec where
  id : UserId
  subscriptionTier : SubscriptionTier
  trialExpiresAt : Option ℤ
  subscriptionExpiresAt : Option ℤ
  snapshotsCreatedToday : ℕ
  totalSnapshotsCreated : ℕ
  emailsSummarizedToday : ℕ
  totalEmailsSummarized : ℕ
  lastSnapshotDate : Option ℤ
  lastUsageResetDay : Option ℤ
deriving Repr, DecidableEq

/-- The current instant: the millisecond timestamp `now` and the calendar-day
index `day` that `now.toDateString()` denotes. -/
structure TimeModel where
  now : ℤ
  day : ℤ
deriving Repr, DecidableEq

/-- `get isTrialActive()` on the User entity. -/
def isTrialActive (u : UserRec) (now : ℤ) : Bool :=
  match u.subscriptionTier, u.trialExpiresAt with
  | .trial, some e => decide (now < e)
  | _, _ => false

/-- `get isSubscriptionActive()` on the User entity: not on trial, and either
no expiry is set or it is still in the future. -/
def isSubscriptionActive (u : UserRec) (now : ℤ) : Bool :=
  match u.subscriptionTier with
  | .trial => false
  | _ =>
    match u.subscriptionExpiresAt with
    | none => true
    | some e => decide (now < e)

/-- `get hasActiveAccess()` on the User entity: trial- or
subscription-active, and never for the `free` tier. -/
def hasActiveAccess (u : UserRec) (now : ℤ) : Bool :=
  (isTrialActive u now || isSubscriptionActive u now) &&
    !(u.subscriptionTier = SubscriptionTier.free)

/-- The fields of `UsageLimitsCheck` that the orchestrator and the error
selection read. -/
structure UsageLimitsCheck where
  canCreateSnapshot : Bool
  canProcessEmails : Bool
  maxEmailsAllowed : ℕ
  isTrialExpired : Bool
  isSubscriptionExpired : Bool
  hasActiveAccess : Bool
deriving Repr, DecidableEq

/-- `resetDailyUsageIfNeeded`: if the stored reset day differs from today,
zero both daily counters and stamp today. -/
def resetDailyUsageIfNeeded (t : TimeModel) (u : UserRec) : UserRec :=
  if u.lastUsageResetDay ≠ some t.day then
    { u with snapshotsCreatedToday := 0, emailsSummarizedToday := 0,
             lastUsageResetDay := some t.day }
  else u

/-- `checkUsageLimits` (subscription service): run the daily reset, then the
pure access evaluation; returns the possibly-reset user row together with the
check result. -/
def checkUsageLimits (plans : SubscriptionTier → PlanLimits) (t : TimeModel)
    (u0 : UserRec) : UserRec × UsageLimitsCheck :=
  let limits := plans u0.subscriptionTier
  let u := resetDailyUsageIfNeeded t u0
  let isTrialExpired :=
    (u.subscriptionTier = SubscriptionTier.trial : Bool) &&
      match u.trialExpiresAt with
      | some e => decide (e ≤ t.now)
      | none => false
  let isSubscriptionExpired :=
    !(u.subscriptionTier = SubscriptionTier.trial : Bool) &&
      match u.subscriptionExpiresAt with
      | some e => decide (e ≤ t.now)
      | none => false
  let hasAccess := hasActiveAccess u t.now && !isTrialExpired &&
    !isSubscriptionExpired
  let canCreate := hasAccess
  let canCreate :=
    if u.subscriptionTier = SubscriptionTier.trial ∧
        limits.totalSnapshotsAllowed.getD 0 ≠ 0 then
      canCreate && decide (u.totalSnapshotsCreated <
        limits.totalSnapshotsAllowed.getD 0)
    else canCreate
  let canCreate :=
    if limits.maxSnapshotsPerDay ≠ 999 then
      canCreate && decide (u.snapshotsCreatedToday < limits.maxSnapshotsPerDay)
    else canCreate
  (u, { canCreateSnapshot := canCreate,
        canProcessEmails := hasAccess,
        maxEmailsAllowed := limits.maxEmailsPerSnapshot,
        isTrialExpired := isTrialExpired,
        isSubscriptionExpired := isSubscriptionExpired,
        hasActiveAccess := hasAccess })

/-- The four quota-error variants thrown by `incrementSnapshotUsage`. -/
inductive QuotaError
  | trialExpired
  | subscriptionExpired
  | noActiveAccess
  | dailyLimitReached
deriving Repr, DecidableEq

/-- The `ForbiddenException` message of each quota-error variant. -/
def QuotaError.message : QuotaError → String
  | .trialExpired => "Trial period has expired. Please upgrade to continue."
  | .subscriptionExpired => "Subscription has expired. Please renew to continue."
  | .noActiveAccess => "No active subscription found."
  | .dailyLimitReached =>
    "Daily snapshot limit reached. Upgrade your plan for more snapshots."

/-- `incrementSnapshotUsage`: re-check the limits (running the daily reset);
on refusal throw the applicable quota error, checking the variants in the
source's order; on success increment both snapshot counters and stamp
`lastSnapshotDate`. -/
def incrementSnapshotUsage (plans : SubscriptionTier → PlanLimits)
    (t : TimeModel) (u0 : UserRec) : Except QuotaError UserRec :=
  let (u, limits) := checkUsageLimits plans t u0
  if !limits.canCreateSnapshot then
    if limits.isTrialExpired then .error .trialExpired
    else if limits.isSubscriptionExpired then .error .subscriptionExpired
    else if !limits.hasActiveAccess then .error .noActiveAccess
    else .error .dailyLimitReached
  else
    .ok { u with snapshotsCreatedToday := u.snapshotsCreatedToday + 1,
                 totalSnapshotsCreated := u.totalSnapshotsCreated + 1,
                 lastSnapshotDate := some t.now }

/-- `incrementEmailSummarization`: unconditionally add `count` to both email
counters. -/
def incrementEmailSummarization (u : UserRec) (count : ℕ) : UserRec :=
  { u with emailsSummarizedToday := u.emailsSummarizedToday + count,
           totalEmailsSummarized := u.totalEmailsSummarized + count }

/-- The fields of `GmailMessageDto` that the orchestrator reads. Optional
fields mirror the DTO's optionality; the DTO carries no header list (the
provider headers are consumed during fetch and are not part of the DTO). -/
structure Email where
  messageId : String
  sender : String
  senderEmail : String
  subject : String
  snippet : Option String
  body : String
  labelIds : Option (List String)
  sizeEstimate : Option ℤ
  date : ℤ
deriving Repr, DecidableEq

/-- Result of the summarization collaborator (`generateEmailSnapshot`):
`none` models a null result, otherwise the summary text plus finish reason. -/
structure SummaryResult where
  content : String
  finishReason : Option String
deriving Repr, DecidableEq

/-- One row of the `snapshots` table (the columns the claims touch). -/
structure SnapshotRec where
  id : ℕ
  userId : UserId
  createdAt : ℤ
  retentionExpiresAt : ℤ
  totalItems : ℕ
deriving Repr, DecidableEq

/-- One row of the `snapshot_items` table (the columns the claims touch). -/
structure ItemRec where
  id : ℕ
  snapshotId : ℕ
  senderId : ℕ
  messageId : String
  summary : String
  priorityScore : ℚ
  priorityLabel : PriorityLabel
deriving Repr, DecidableEq

/-- One row of the `senders` table. `domain` is `email.split('@')[1]`, which
is absent when the address has no `@`. -/
structure SenderRec where
  id : ℕ
  userId : UserId
  name : String
  emailAddress : String
  domain : Option String
  totalEmails : ℕ
deriving Repr, DecidableEq

/-- The relational store: the three tables plus a fresh-id counter standing
in for generated primary keys. -/
structure Db where
  snapshots : List SnapshotRec
  items : List ItemRec
  senders : List SenderRec
  nextId : ℕ
deriving Repr, DecidableEq

def emptyDb : Db := { snapshots := [], items := [], senders := [], nextId := 0 }

/-- The `findOne` criterion of the sender lookup: `(userId, emailAddress)`
both match. -/
def senderMatches (userId : UserId) (email : String) (s : SenderRec) : Bool :=
  s.userId == userId && s.emailAddress == email

/-- `getOrCreateSender`: look up by `(userId, emailAddress)`; absent → insert
with `totalEmails = 1`; present → increment that row's count and save it
(save is keyed by the row's primary id). -/
def getOrCreateSender (db : Db) (userId : UserId) (name email : String) :
    SenderRec × Db :=
  match db.senders.find? (senderMatches userId email) with
  | some s =>
    let s' := { s with totalEmails := s.totalEmails + 1 }
    (s', { db with senders :=
      db.senders.map (fun x => if x.id == s.id then s' else x) })
  | none =>
    let s : SenderRec :=
      { id := db.nextId, userId := userId, name := name, emailAddress := email,
        domain := (jsSplit email '@').get? 1, totalEmails := 1 }
    (s, { db with senders := db.senders ++ [s], nextId := db.nextId + 1 })

/-- `getExistingMessageIds`: the message ids of every snapshot item joined to
a snapshot owned by `userId` — across all of the user's snapshots. -/
def getExistingMessageIds (db : Db) (userId : UserId) : List String :=
  (db.items.filter (fun it =>
    db.snapshots.any (fun s => s.id == it.snapshotId && s.userId == userId))).map
    (fun it => it.messageId)

/-- The 72-hour retention window in milliseconds. -/
def retentionWindowMs : ℤ := 72 * 60 * 60 * 1000

/-- `createSnapshotRecord`: insert a snapshot row with `totalItems = 0` and
`retentionExpiresAt = now + 72h`. -/
def createSnapshotRecord (t : TimeModel) (db : Db) (userId : UserId) :
    SnapshotRec × Db :=
  let snap : SnapshotRec :=
    { id := db.nextId, userId := userId, createdAt := t.now,
      retentionExpiresAt := t.now + retentionWindowMs, totalItems := 0 }
  (snap, { db with snapshots := db.snapshots ++ [snap], nextId := db.nextId + 1 })

/-- `email.body || email.snippet`: the text handed to the summarizer. -/
def messageText (e : Email) : String :=
  if e.body = "" then e.snippet.getD "" else e.body

/-- Whether a summarization result leads to an item (`!summary ||
summary.content.length === 0` skips the message). -/
def summaryUsable : Option SummaryResult → Bool
  | none => false
  | some s => !(s.content = "")

/-- `processEmailsToItems`: per email, resolve the sender, summarize, skip on
an unusable summary, otherwise score the message (with an empty header list —
headers are not available in the DTO) and insert a snapshot item. Returns the
created items in order together with the updated store. -/
def processEmailsToItems (summarize : String → Option SummaryResult)
    (snapshotId : ℕ) (userId : UserId) :
    List Email → Db → List ItemRec × Db
  | [], db => ([], db)
  | email :: rest, db =>
    let (sender, db) := getOrCreateSender db userId email.sender email.senderEmail
    let summary := summarize (messageText email)
    if summaryUsable summary then
      let content := match summary with
        | some s => s.content
        | none => ""
      let importance := calculateEnhancedImportance (email.labelIds.getD [])
        [] email.senderEmail (email.sizeEstimate.getD 0)
      let item : ItemRec :=
        { id := db.nextId, snapshotId := snapshotId, senderId := sender.id,
          messageId := email.messageId, summary := content,
          priorityScore := importance.score,
          priorityLabel := scoreToPriorityLabel importance.score }
      let db := { db with items := db.items ++ [item], nextId := db.nextId + 1 }
      let (items, db) := processEmailsToItems summarize snapshotId userId rest db
      (item :: items, db)
    else
      processEmailsToItems summarize snapshotId userId rest db

/-- `CreateSnapshotResponseDto`. -/
structure CreateSnapshotResult where
  success : Bool
  message : String
  snapshotId : Option ℕ
  totalItems : Option ℕ
  newEmailsProcessed : Option ℕ
deriving Repr, DecidableEq

/-- What one `createSnapshot` run leaves behind: the returned value (`.error`
models the thrown `BadRequestException` with its message), the user row, the
store, and whether the mailbox fetch collaborator was invoked. -/
structure CsOutcome where
  result : Except String CreateSnapshotResult
  user : UserRec
  db : Db
  fetchCalled : Bool
deriving Repr

def noNewAfterDedupMsg : String :=
  "No new unread emails to process. All recent emails are already in existing snapshots."

/-- `createSnapshot` (snapshot service). Collaborators are parameters: `fetch`
is the mailbox fetch (taking the computed email limit), `summarize` the
summarization call. Every failure inside the `try` is wrapped as
`Failed to create snapshot: <cause>`; the quota errors thrown by step 1 are
caught by the same catch-all. -/
def createSnapshot (plans : SubscriptionTier → PlanLimits)
    (maxEmailsForSummary : ℕ) (t : TimeModel)
    (fetch : ℕ → Except String (List Email))
    (summarize : String → Option SummaryResult)
    (u0 : UserRec) (db0 : Db) : CsOutcome :=
  match incrementSnapshotUsage plans t u0 with
  | .error qe =>
    { result := .error ("Failed to create snapshot: " ++ qe.message),
      user := u0, db := db0, fetchCalled := false }
  | .ok u1 =>
    let (u2, limits) := checkUsageLimits plans t u1
    let emailLimit := min limits.maxEmailsAllowed maxEmailsForSummary
    match fetch emailLimit with
    | .error msg =>
      { result := .error ("Failed to create snapshot: " ++ msg),
        user := u2, db := db0, fetchCalled := true }
    | .ok unreadEmails =>
      let noUnread : CreateSnapshotResult :=
        { success := false, message := "No new unread emails found.",
          snapshotId := none, totalItems := none, newEmailsProcessed := none }
      let noNew : CreateSnapshotResult :=
        { success := false, message := noNewAfterDedupMsg,
          snapshotId := none, totalItems := none, newEmailsProcessed := none }
      if unreadEmails.isEmpty then
        { result := .ok noUnread, user := u2, db := db0, fetchCalled := true }
      else
        let existingMessageIds := getExistingMessageIds db0 u0.id
        let newEmails := unreadEmails.filter (fun e =>
          !(existingMessageIds.contains e.messageId))
        if newEmails.isEmpty then
          { result := .ok noNew, user := u2, db := db0, fetchCalled := true }
        else
          let (snapshot, db1) := createSnapshotRecord t db0 u0.id
          let (snapshotItems, db2) :=
            processEmailsToItems summarize snapshot.id u0.id newEmails db1
          if snapshotItems.isEmpty then
            { result := .ok noNew, user := u2, db := db2, fetchCalled := true }
          else
            let db3 := { db2 with snapshots := db2.snapshots.map (fun s =>
              if s.id == snapshot.id then
                { s with totalItems := snapshotItems.length } else s) }
            let u3 := incrementEmailSummarization u2 snapshotItems.length
            let done : CreateSnapshotResult :=
              { success := true,
                message := "Successfully created snapshot with " ++
                  toString snapshotItems.length ++ " email summaries.",
                snapshotId := some snapshot.id,
                totalItems := some snapshotItems.length,
                newEmailsProcessed := some newEmails.length }
            { result := .ok done, user := u3, db := db3, fetchCalled := true }

/-- `getSnapshotWithItems`: find the snapshot by `(id, userId)`; a missing
row — whether nonexistent or owned by someone else — raises the same
`NotFoundException('Snapshot not found')`. -/
def getSnapshotWithItems (db : Db) (userId : UserId) (snapshotId : ℕ) :
    Except String (SnapshotRec × List ItemRec) :=
  match db.snapshots.find? (fun s =>
      s.id == snapshotId && s.userId == userId) with
  | none => .error "Snapshot not found"
  | some s => .ok (s, db.items.filter (fun it => it.snapshotId == s.id))

/-- `cleanupExpiredSnapshots` (scheduler service), as the code ships it: the
active "testing logic" deletes every snapshot created more than one hour ago
(items first, then the snapshots), ignoring `retentionExpiresAt`; the
retention-based deletion is commented out in the source. -/
def cleanupExpiredSnapshots (t : TimeModel) (db : Db) : Db :=
  let oneHourAgo := t.now - 1 * 60 * 60 * 1000
  let snapshotIds := (db.snapshots.filter (fun s =>
    decide (s.createdAt < oneHourAgo))).map (fun s => s.id)
  if snapshotIds.isEmpty then db
  else
    { db with
      items := db.items.filter (fun it => !(snapshotIds.contains it.snapshotId)),
      snapshots := db.snapshots.filter (fun s => !(snapshotIds.contains s.id)) }

/-- A sender-registry resolution trace: `resolveSender` calls in order, each
carrying `(userId, name, email)`. -/
def resolveCalls : List (UserId × String × String) → Db → Db
  | [], db => db
  | (u, n, e) :: rest, db => resolveCalls rest (getOrCreateSender db u n e).2

section Lemmas

/-- The pipeline never touches the snapshots table. -/
lemma processEmailsToItems_snapshots (σ : String → Option SummaryResult)
    (sid : ℕ) (uid : UserId) (es : List Email) (db : Db) :
    (processEmailsToItems σ sid uid es db).2.snapshots = db.snapshots := by
  induction es generalizing db with
  | nil => rfl
  | cons e rest ih =>
    simp only [processEmailsToItems]
    rcases h : getOrCreateSender db uid e.sender e.senderEmail with ⟨sender, db1⟩
    have hsnap : db1.snapshots = db.snapshots := by
      unfold getOrCreateSender at h
      rcases hf : db.senders.find? (senderMatches uid e.senderEmail)
          with _ | s <;>
        simp [hf] at h <;> simp [← h.2]
    split
    · rw [ih]
      simp [hsnap]
    · rw [ih]
      exact hsnap

/-- The pipeline appends exactly the returned items to the items table. -/
lemma processEmailsToItems_items (σ : String → Option SummaryResult)
    (sid : ℕ) (uid : UserId) (es : List Email) (db : Db) :
    (processEmailsToItems σ sid uid es db).2.items =
      db.items ++ (processEmailsToItems σ sid uid es db).1 := by
  induction es generalizing db with
  | nil => simp [processEmailsToItems]
  | cons e rest ih =>
    simp only [processEmailsToItems]
    rcases h : getOrCreateSender db uid e.sender e.senderEmail with ⟨sender, db1⟩
    have hitems : db1.items = db.items := by
      unfold getOrCreateSender at h
      rcases hf : db.senders.find? (senderMatches uid e.senderEmail)
          with _ | s <;>
        simp [hf] at h <;> simp [← h.2]
    split
    · rw [ih]
      simp [hitems, List.append_assoc]
    · rw [ih, hitems]

/-- Every email whose summary is usable contributes an item with its message
id. -/
lemma processEmailsToItems_covers (σ : String → Option SummaryResult)
    (sid : ℕ) (uid : UserId) (es : List Email) (db : Db) :
    ∀ e ∈ es, summaryUsable (σ (messageText e)) →
      e.messageId ∈ (processEmailsToItems σ sid uid es db).1.map
        (fun it => it.messageId) := by
  induction es generalizing db with
  | nil => intro e he; simp at he
  | cons e₀ rest ih =>
    intro e he hs
    simp only [processEmailsToItems]
    rcases getOrCreateSender db uid e₀.sender e₀.senderEmail with ⟨sender, db1⟩
    rcases List.mem_cons.mp he with rfl | hmem
    · simp only [hs, if_true]
      simp
    · split
      · simp only [List.map_cons, List.mem_cons]
        exact Or.inr (ih _ e hmem hs)
      · exact ih _ e hmem hs

/-- Every created item records the snapshot id, carries the score computed
with an empty header list from its email's metadata, and a label that is the
threshold mapping of that score. -/
lemma processEmailsToItems_shape (σ : String → Option SummaryResult)
    (sid : ℕ) (uid : UserId) (es : List Email) (db : Db) :
    ∀ it ∈ (processEmailsToItems σ sid uid es db).1,
      it.snapshotId = sid ∧
      it.priorityLabel = scoreToPriorityLabel it.priorityScore ∧
      ∃ e ∈ es, it.messageId = e.messageId ∧
        it.priorityScore = (calculateEnhancedImportance (e.labelIds.getD [])
          [] e.senderEmail (e.sizeEstimate.getD 0)).score := by
  induction es generalizing db with
  | nil => intro it hit; simp [processEmailsToItems] at hit
  | cons e₀ rest ih =>
    intro it hit
    simp only [processEmailsToItems] at hit
    rcases getOrCreateSender db uid e₀.sender e₀.senderEmail with ⟨sender, db1⟩
    by_cases hs : summaryUsable (σ (messageText e₀))
    · simp only [hs, if_true, List.mem_cons] at hit
      rcases hit with rfl | hmem
      · refine ⟨rfl, rfl, e₀, by simp, rfl, rfl⟩
      · obtain ⟨h1, h2, e, he, h3⟩ := ih _ it hmem
        exact ⟨h1, h2, e, List.mem_cons_of_mem _ he, h3⟩
    · simp only [hs, if_false] at hit
      obtain ⟨h1, h2, e, he, h3⟩ := ih _ it hit
      exact ⟨h1, h2, e, List.mem_cons_of_mem _ he, h3⟩

/-- Two-decimal rounding is monotone. -/
lemma round2_mono {x y : ℚ} (h : x ≤ y) : round2 x ≤ round2 y := by
  unfold round2
  gcongr

/-- Two-decimal rounding preserves the unit interval. -/
lemma round2_bounds {x : ℚ} (h : 0 ≤ x ∧ x ≤ 1) :
    0 ≤ round2 x ∧ round2 x ≤ 1 := by
  unfold round2
  constructor
  · have h0 : (0 : ℤ) ≤ ⌊x * 100 + 1/2⌋ :=
      Int.floor_nonneg.mpr (by linarith [h.1])
    exact div_nonneg (by exact_mod_cast h0) (by norm_num)
  · have hlt : ⌊x * 100 + 1/2⌋ < 101 :=
      Int.floor_lt.mpr (by push_cast; linarith [h.2])
    rw [div_le_one (by norm_num)]
    have h100 : ⌊x * 100 + 1/2⌋ ≤ 100 := by omega
    exact_mod_cast h100

/-- `contains` over a consed head that differs from the sought element. -/
lemma contains_cons_ne {l : List String} {a b : String}
    (h : (b == a) = false) : (a :: l).contains b = l.contains b := by
  rw [List.contains_cons, h, Bool.false_or]

/-- `contains` finds the consed head itself. -/
lemma contains_cons_self {l : List String} {a : String} :
    (a :: l).contains a = true := by
  rw [List.contains_cons, beq_self_eq_true, Bool.true_or]

/-- An `IMPORTANT` label at the head does not affect the category chain. -/
lemma categoryAdjust_cons_IMPORTANT (l : List String)
    (st : ℚ × List String) :
    categoryAdjust ("IMPORTANT" :: l) st = categoryAdjust l st := by
  unfold categoryAdjust
  rw [contains_cons_ne (by decide), contains_cons_ne (by decide),
    contains_cons_ne (by decide)]

/-- A rule whose condition is false leaves the state unchanged. -/
lemma clampScore_false {f : ℚ → ℚ} {tag : String} {st : ℚ × List String} :
    clampScore false f tag st = st := by
  simp [clampScore]

/-- A clamp rule keeps the score in the unit interval when its clamp function
does. -/
lemma clampScore_fst_bounds {cond : Bool} {f : ℚ → ℚ} {tag : String}
    {st : ℚ × List String}
    (hf : ∀ s : ℚ, 0 ≤ s → s ≤ 1 → 0 ≤ f s ∧ f s ≤ 1)
    (hst : 0 ≤ st.1 ∧ st.1 ≤ 1) :
    0 ≤ (clampScore cond f tag st).1 ∧ (clampScore cond f tag st).1 ≤ 1 := by
  unfold clampScore
  split
  · exact hf st.1 hst.1 hst.2
  · exact hst

/-- `max · c` with `c ≤ 1` preserves the unit interval. -/
lemma maxc_bounds {c : ℚ} (hc : c ≤ 1) :
    ∀ s : ℚ, 0 ≤ s → s ≤ 1 → 0 ≤ max s c ∧ max s c ≤ 1 :=
  fun _ h0 h1 => ⟨h0.trans (le_max_left _ _), max_le h1 hc⟩

/-- `min (· + d) 1` with `0 ≤ d` preserves the unit interval. -/
lemma addclamp_bounds {d : ℚ} (hd : 0 ≤ d) :
    ∀ s : ℚ, 0 ≤ s → s ≤ 1 → 0 ≤ min (s + d) 1 ∧ min (s + d) 1 ≤ 1 :=
  fun _ h0 _ => ⟨le_min (by linarith) (by norm_num), min_le_right _ _⟩

/-- The category chain keeps the score in the unit interval. -/
lemma categoryAdjust_fst_bounds {labels : List String} {st : ℚ × List String}
    (hst : 0 ≤ st.1 ∧ st.1 ≤ 1) :
    0 ≤ (categoryAdjust labels st).1 ∧ (categoryAdjust labels st).1 ≤ 1 := by
  unfold categoryAdjust
  split_ifs
  · exact ⟨le_min hst.1 (by norm_num), (min_le_left _ _).trans hst.2⟩
  · exact ⟨le_min hst.1 (by norm_num), (min_le_left _ _).trans hst.2⟩
  · exact ⟨hst.1.trans (le_max_left _ _), max_le hst.2 (by norm_num)⟩
  · exact hst

/-- A clamp rule with a monotone clamp function is monotone in the incoming
score (for one fixed condition). -/
lemma clampScore_fst_mono {cond : Bool} {f : ℚ → ℚ} {tag tag' : String}
    (hf : Monotone f) {st st' : ℚ × List String} (h : st.1 ≤ st'.1) :
    (clampScore cond f tag st).1 ≤ (clampScore cond f tag' st').1 := by
  unfold clampScore
  split
  · exact hf h
  · exact h

lemma maxc_mono {c : ℚ} : Monotone (fun s : ℚ => max s c) :=
  fun _ _ h => max_le_max h le_rfl

lemma addclamp_mono {d : ℚ} : Monotone (fun s : ℚ => min (s + d) 1) :=
  fun _ _ h => min_le_min (by linarith) le_rfl

/-- The category chain is monotone in the incoming score. -/
lemma categoryAdjust_fst_mono {labels : List String}
    {st st' : ℚ × List String} (h : st.1 ≤ st'.1) :
    (categoryAdjust labels st).1 ≤ (categoryAdjust labels st').1 := by
  unfold categoryAdjust
  split_ifs
  · exact min_le_min h le_rfl
  · exact min_le_min h le_rfl
  · exact max_le_max h le_rfl
  · exact h

/-- The score of `calculateEnhancedImportance` always lies in `[0, 1]`. -/
lemma score_in_unit_interval (labelIds : List String)
    (headers : List MessageHeader) (senderEmail : String) (sizeEstimate : ℤ) :
    0 ≤ (calculateEnhancedImportance labelIds headers senderEmail
      sizeEstimate).score ∧
    (calculateEnhancedImportance labelIds headers senderEmail
      sizeEstimate).score ≤ 1 := by
  unfold calculateEnhancedImportance
  dsimp only
  exact round2_bounds
    (clampScore_fst_bounds (addclamp_bounds (by norm_num))
      (clampScore_fst_bounds (addclamp_bounds (by norm_num))
        (clampScore_fst_bounds (maxc_bounds (by norm_num))
          (clampScore_fst_bounds (maxc_bounds (by norm_num))
            (categoryAdjust_fst_bounds
              (clampScore_fst_bounds (maxc_bounds (by norm_num))
                (clampScore_fst_bounds (maxc_bounds le_rfl)
                  (by norm_num))))))))

lemma strUpper_IMPORTANT : strUpper "IMPORTANT" = "IMPORTANT" := by decide

lemma strUpper_PROMOTIONS :
    strUpper "CATEGORY_PROMOTIONS" = "CATEGORY_PROMOTIONS" := by decide

/-- Adding the `IMPORTANT` label can only fire rule 1 and leaves every other
rule condition unchanged, so the final score never decreases. -/
lemma score_mono_in_important (labelIds : List String)
    (headers : List MessageHeader) (senderEmail : String) (sizeEstimate : ℤ) :
    (calculateEnhancedImportance labelIds headers senderEmail
      sizeEstimate).score ≤
    (calculateEnhancedImportance ("IMPORTANT" :: labelIds) headers senderEmail
      sizeEstimate).score := by
  unfold calculateEnhancedImportance
  dsimp only
  simp only [List.map_cons, strUpper_IMPORTANT]
  rw [categoryAdjust_cons_IMPORTANT, contains_cons_ne (by decide),
    contains_cons_self]
  apply round2_mono
  apply clampScore_fst_mono addclamp_mono
  apply clampScore_fst_mono addclamp_mono
  apply clampScore_fst_mono maxc_mono
  apply clampScore_fst_mono maxc_mono
  apply categoryAdjust_fst_mono
  apply clampScore_fst_mono maxc_mono
  by_cases h : (labelIds.map strUpper).contains "IMPORTANT" = true
  · rw [h]
  · rw [Bool.not_eq_true] at h
    rw [h, clampScore_false]
    show ((1 : ℚ)/2, ([] : List String)).1 ≤ (clampScore true _ _ _).1
    simp [clampScore]

/-- With a `CATEGORY_PROMOTIONS` label present the category chain clamps the
score to at most 0.3. -/
lemma categoryAdjust_fst_le_promo {labels : List String}
    {st : ℚ × List String} (h : labels.contains "CATEGORY_PROMOTIONS" = true) :
    (categoryAdjust labels st).1 ≤ 3/10 := by
  unfold categoryAdjust
  rw [if_pos h]
  exact min_le_right _ _

/-- With a promotions label and no header/domain/size signal, the score is at
most 0.3 — rule 3's `min` clamp comes after rules 1 and 2. -/
lemma promo_caps_score (labelIds : List String)
    (headers : List MessageHeader) (senderEmail : String) (sizeEstimate : ℤ)
    (h4 : (((findHeader headers "Importance").map strLower == some "high") ||
      ((findHeader headers "Priority").map strLower == some "urgent")) = false)
    (h5 : xPriorityHigh (findHeader headers "X-Priority") = false)
    (h6 : isTrustedDomain senderEmail = false)
    (h7 : decide (50000 < sizeEstimate) = false) :
    (calculateEnhancedImportance ("CATEGORY_PROMOTIONS" :: labelIds) headers
      senderEmail sizeEstimate).score ≤ 3/10 := by
  unfold calculateEnhancedImportance
  dsimp only
  simp only [h4, h5, h6, h7, List.map_cons, strUpper_PROMOTIONS,
    clampScore_false]
  refine le_trans (round2_mono (categoryAdjust_fst_le_promo
    contains_cons_self)) ?_
  norm_num [round2]

/-- The label mapping agrees with the threshold table. -/
lemma scoreToPriorityLabel_spec (s : ℚ) :
    (85/100 ≤ s → scoreToPriorityLabel s = .urgent) ∧
    (7/10 ≤ s → s < 85/100 → scoreToPriorityLabel s = .high) ∧
    (4/10 ≤ s → s < 7/10 → scoreToPriorityLabel s = .medium) ∧
    (s < 4/10 → scoreToPriorityLabel s = .low) := by
  unfold scoreToPriorityLabel
  refine ⟨fun h => by rw [if_pos h], fun h1 h2 => ?_, fun h1 h2 => ?_,
    fun h => ?_⟩
  · rw [if_neg (by linarith), if_pos h1]
  · rw [if_neg (by linarith), if_neg (by linarith), if_pos h1]
  · rw [if_neg (by linarith), if_neg (by linarith), if_neg (by linarith)]

/-- A clamp rule adds at most its own tag to the factors. -/
lemma clampScore_snd_mem {x : String} {cond : Bool} {f : ℚ → ℚ} {tag : String}
    {st : ℚ × List String} (h : x ∈ (clampScore cond f tag st).2) :
    x ∈ st.2 ∨ x = tag := by
  unfold clampScore at h
  split at h
  · rcases List.mem_append.mp h with h | h
    · exact Or.inl h
    · exact Or.inr (List.mem_singleton.mp h)
  · exact Or.inl h

/-- The category chain adds at most its three tags to the factors. -/
lemma categoryAdjust_snd_mem {x : String} {l : List String}
    {st : ℚ × List String} (h : x ∈ (categoryAdjust l st).2) :
    x ∈ st.2 ∨ x = "promotional" ∨ x = "updates" ∨ x = "personal" := by
  unfold categoryAdjust at h
  split_ifs at h <;>
    first
    | (rcases List.mem_append.mp h with h | h
       · exact Or.inl h
       · simp only [List.mem_singleton] at h; tauto)
    | exact Or.inl h

/-- With an empty header list, no factor beyond the label, domain, and size
tags can appear: the two header rules never fire. -/
lemma factors_with_empty_headers (ls : List String) (em : String) (sz : ℤ) :
    ∀ x ∈ (calculateEnhancedImportance ls [] em sz).factors,
      x = "marked-important" ∨ x = "starred" ∨ x = "promotional" ∨
      x = "updates" ∨ x = "personal" ∨ x = "trusted-domain" ∨
      x = "large-email" := by
  intro x hx
  unfold calculateEnhancedImportance at hx
  dsimp only at hx
  have hA : (((findHeader ([] : List MessageHeader) "Importance").map strLower
      == some "high") ||
      ((findHeader ([] : List MessageHeader) "Priority").map strLower
      == some "urgent")) = false := rfl
  have hB : xPriorityHigh (findHeader ([] : List MessageHeader) "X-Priority")
      = false := rfl
  simp only [hA, hB, clampScore_false] at hx
  rcases clampScore_snd_mem hx with hx | rfl
  · rcases clampScore_snd_mem hx with hx | rfl
    · rcases categoryAdjust_snd_mem hx with hx | rfl | rfl | rfl
      · rcases clampScore_snd_mem hx with hx | rfl
        · rcases clampScore_snd_mem hx with hx | rfl
          · simp at hx
          · tauto
        · tauto
      · tauto
      · tauto
      · tauto
    · tauto
  · tauto

/-- The user row returned by `checkUsageLimits` is exactly the daily-reset
row. -/
lemma checkUsageLimits_fst (plans : SubscriptionTier → PlanLimits)
    (t : TimeModel) (u : UserRec) :
    (checkUsageLimits plans t u).1 = resetDailyUsageIfNeeded t u := rfl

/-- The daily reset is a no-op when the stored day is already today. -/
lemma reset_noop {t : TimeModel} {u : UserRec}
    (h : u.lastUsageResetDay = some t.day) :
    resetDailyUsageIfNeeded t u = u := by
  unfold resetDailyUsageIfNeeded
  rw [if_neg]
  simp [h]

/-- After the daily reset the stored day is today. -/
lemma reset_day (t : TimeModel) (u : UserRec) :
    (resetDailyUsageIfNeeded t u).lastUsageResetDay = some t.day := by
  unfold resetDailyUsageIfNeeded
  split
  · rfl
  · next h => simpa using h

/-- The daily reset never touches tier, expiries, or lifetime counters. -/
lemma reset_preserves (t : TimeModel) (u : UserRec) :
    (resetDailyUsageIfNeeded t u).subscriptionTier = u.subscriptionTier ∧
    (resetDailyUsageIfNeeded t u).trialExpiresAt = u.trialExpiresAt ∧
    (resetDailyUsageIfNeeded t u).subscriptionExpiresAt =
      u.subscriptionExpiresAt ∧
    (resetDailyUsageIfNeeded t u).totalSnapshotsCreated =
      u.totalSnapshotsCreated ∧
    (resetDailyUsageIfNeeded t u).id = u.id := by
  unfold resetDailyUsageIfNeeded
  split <;> exact ⟨rfl, rfl, rfl, rfl, rfl⟩

/-- What a successful reservation does to the user row: both snapshot
counters go up by one on the daily-reset row, and the reset day is today. -/
lemma incrementSnapshotUsage_ok {plans : SubscriptionTier → PlanLimits}
    {t : TimeModel} {u0 u1 : UserRec}
    (h : incrementSnapshotUsage plans t u0 = .ok u1) :
    u1.snapshotsCreatedToday =
      (resetDailyUsageIfNeeded t u0).snapshotsCreatedToday + 1 ∧
    u1.totalSnapshotsCreated = u0.totalSnapshotsCreated + 1 ∧
    u1.lastUsageResetDay = some t.day ∧
    u1.id = u0.id := by
  unfold incrementSnapshotUsage at h
  rcases hck : checkUsageLimits plans t u0 with ⟨u', L⟩
  rw [hck] at h
  dsimp only at h
  have hu' : u' = resetDailyUsageIfNeeded t u0 := by
    rw [← checkUsageLimits_fst plans t u0, hck]
  split_ifs at h <;> cases h
  rw [hu']
  refine ⟨rfl, ?_, reset_day t u0, (reset_preserves t u0).2.2.2.2⟩
  show (resetDailyUsageIfNeeded t u0).totalSnapshotsCreated + 1 =
    u0.totalSnapshotsCreated + 1
  rw [(reset_preserves t u0).2.2.2.1]

/-- On a quota refusal, the thrown variant is the first applicable one in the
order trial-expired, subscription-expired, no-active-access, daily-cap. -/
lemma incrementSnapshotUsage_error_order (plans : SubscriptionTier → PlanLimits)
    (t : TimeModel) (u : UserRec)
    (h : (checkUsageLimits plans t u).2.canCreateSnapshot = false) :
    incrementSnapshotUsage plans t u = .error
      (if (checkUsageLimits plans t u).2.isTrialExpired then .trialExpired
       else if (checkUsageLimits plans t u).2.isSubscriptionExpired then
         .subscriptionExpired
       else if !(checkUsageLimits plans t u).2.hasActiveAccess then
         .noActiveAccess
       else .dailyLimitReached) := by
  unfold incrementSnapshotUsage
  rcases hck : checkUsageLimits plans t u with ⟨u', L⟩
  rw [hck] at h
  dsimp only at h ⊢
  rw [h]
  simp only [Bool.not_false, if_true]
  split_ifs <;> rfl

/-- Whatever `createSnapshot` returns, the user row it leaves behind carries
the counters of the reserved row: no later step rolls the reservation back
(`incrementEmailSummarization` touches only the e-mail counters). -/
lemma createSnapshot_user_counters (plans : SubscriptionTier → PlanLimits)
    (maxE : ℕ) (t : TimeModel) (fetch : ℕ → Except String (List Email))
    (σ : String → Option SummaryResult) (u0 : UserRec) (db0 : Db)
    {u1 : UserRec} (h1 : incrementSnapshotUsage plans t u0 = .ok u1) :
    (createSnapshot plans maxE t fetch σ u0 db0).user.snapshotsCreatedToday =
      u1.snapshotsCreatedToday ∧
    (createSnapshot plans maxE t fetch σ u0 db0).user.totalSnapshotsCreated =
      u1.totalSnapshotsCreated := by
  unfold createSnapshot
  rw [h1]
  dsimp only
  have hday : u1.lastUsageResetDay = some t.day :=
    (incrementSnapshotUsage_ok h1).2.2.1
  have hck : checkUsageLimits plans t u1 =
      (u1, (checkUsageLimits plans t u1).2) := by
    rw [Prod.ext_iff]
    exact ⟨by rw [checkUsageLimits_fst, reset_noop hday], rfl⟩
  rw [hck]
  dsimp only
  rcases fetch (min (checkUsageLimits plans t u1).2.maxEmailsAllowed maxE) with
    msg | emails
  · exact ⟨rfl, rfl⟩
  · dsimp only
    split
    · exact ⟨rfl, rfl⟩
    · split
      · exact ⟨rfl, rfl⟩
      · split
        · exact ⟨rfl, rfl⟩
        · exact ⟨rfl, rfl⟩

/-- A free-tier user never has active access, whatever the expiry fields. -/
lemma hasActiveAccess_free (u : UserRec) (now : ℤ)
    (h : u.subscriptionTier = .free) : hasActiveAccess u now = false := by
  unfold hasActiveAccess
  rw [h]
  simp

/-- For a free-tier user, the reservation always throws: the
subscription-expired variant when an expiry is set and past, the
no-active-access variant otherwise. -/
lemma incrementSnapshotUsage_free (plans : SubscriptionTier → PlanLimits)
    (t : TimeModel) (u : UserRec) (h : u.subscriptionTier = .free) :
    incrementSnapshotUsage plans t u = .error
      (match u.subscriptionExpiresAt with
       | some e => if e ≤ t.now then .subscriptionExpired else .noActiveAccess
       | none => .noActiveAccess) := by
  have hres := reset_preserves t u
  unfold incrementSnapshotUsage checkUsageLimits
  dsimp only
  rw [hres.1, hres.2.2.1, h]
  rw [hasActiveAccess_free _ _ (by rw [hres.1, h])]
  rcases hsub : u.subscriptionExpiresAt with _ | e
  · simp
  · by_cases he : e ≤ t.now
    · simp [he]
    · simp [he]

/-- The Sender rows of one store matching a `(userId, email)` pair. -/
def senderRows (db : Db) (u : UserId) (e : String) : List SenderRec :=
  db.senders.filter (senderMatches u e)

/-- How many calls of a resolution trace target a `(userId, email)` pair. -/
def callCount (calls : List (UserId × String × String)) (u : UserId)
    (e : String) : ℕ :=
  calls.countP (fun c => c.1 == u && c.2.2 == e)

/-- The store invariants the sender registry maintains: primary ids are
distinct and below the fresh-id counter, and each `(userId, email)` pair has
at most one row — the `@Unique(['userId', 'emailAddress'])` constraint. -/
def SenderInv (db : Db) : Prop :=
  (db.senders.map (fun s => s.id)).Nodup ∧
  (∀ s ∈ db.senders, s.id < db.nextId) ∧
  (∀ u e, (senderRows db u e).length ≤ 1)

lemma senderInv_empty : SenderInv emptyDb := by
  refine ⟨List.nodup_nil, by simp [emptyDb], ?_⟩
  intro u e
  simp [senderRows, emptyDb]

lemma eq_singleton_of_mem_of_length_le_one {α : Type} {l : List α} {a : α}
    (h : a ∈ l) (hl : l.length ≤ 1) : l = [a] := by
  match l, h with
  | [x], h =>
    have hax : a = x := by simpa using h
    rw [hax]
  | x :: y :: rest, _ => simp at hl

/-- Updating the unique row with a given id, inside a filter that the old and
new row both satisfy. -/
lemma filter_map_update {l : List SenderRec} {s s' : SenderRec}
    {p : SenderRec → Bool}
    (hinj : ∀ x ∈ l, x.id = s.id → x = s)
    (hps' : p s' = true) (hid : s'.id = s.id)
    (hfil : l.filter p = [s]) :
    (l.map (fun x => if x.id == s.id then s' else x)).filter p = [s'] := by
  have hps : p s = true := by
    have hmem : s ∈ l.filter p := by
      rw [hfil]; exact List.mem_singleton_self s
    exact List.of_mem_filter hmem
  induction l with
  | nil => simp at hfil
  | cons a rest ih =>
    by_cases hpa : p a = true
    · rw [List.filter_cons_of_pos hpa] at hfil
      obtain ⟨ha, hrest⟩ := List.cons_eq_cons.mp hfil
      have hsrest : ∀ x ∈ rest, x ≠ s := by
        intro x hx hxs
        have hnp := (List.filter_eq_nil.mp hrest) x hx
        rw [hxs] at hnp
        exact hnp hps
      have hmapid : rest.map (fun x => if x.id == s.id then s' else x)
          = rest := by
        have hcongr : rest.map (fun x => if x.id == s.id then s' else x) =
            rest.map id := by
          apply List.map_congr_left
          intro x hx
          simp only [id]
          rw [if_neg]
          simp only [beq_iff_eq]
          intro hxid
          exact hsrest x hx (hinj x (List.mem_cons_of_mem _ hx) hxid)
        rw [hcongr, List.map_id]
      simp only [List.map_cons, hmapid, ha, beq_self_eq_true, if_true]
      rw [List.filter_cons_of_pos hps', hrest]
    · have hane : a ≠ s := fun h => hpa (h ▸ hps)
      rw [List.filter_cons_of_neg (by simpa using hpa)] at hfil
      have haid : ¬(a.id == s.id) = true := by
        simp only [beq_iff_eq]
        intro h
        exact hane (hinj a (List.mem_cons_self a rest) h)
      simp only [List.map_cons, if_neg haid]
      rw [List.filter_cons_of_neg (by simpa using hpa)]
      exact ih (fun x hx => hinj x (List.mem_cons_of_mem _ hx)) hfil

/-- Updating a row that a filter rejects (before and after) leaves that
filter unchanged. -/
lemma filter_map_update_other {l : List SenderRec} {s s' : SenderRec}
    {q : SenderRec → Bool}
    (hinj : ∀ x ∈ l, x.id = s.id → x = s)
    (hqs : q s = false) (hqs' : q s' = false) :
    (l.map (fun x => if x.id == s.id then s' else x)).filter q =
      l.filter q := by
  induction l with
  | nil => rfl
  | cons a rest ih =>
    have ihrest := ih (fun x hx => hinj x (List.mem_cons_of_mem _ hx))
    by_cases ha : a = s
    · simp only [List.map_cons, ha, beq_self_eq_true, if_true]
      rw [List.filter_cons_of_neg (by simpa using hqs'),
        List.filter_cons_of_neg (by simpa using hqs)]
      exact ihrest
    · have haid : ¬(a.id == s.id) = true := by
        simp only [beq_iff_eq]
        intro h
        exact ha (hinj a (List.mem_cons_self a rest) h)
      simp only [List.map_cons, if_neg haid]
      by_cases hqa : q a = true
      · rw [List.filter_cons_of_pos hqa, List.filter_cons_of_pos hqa, ihrest]
      · rw [List.filter_cons_of_neg (by simpa using hqa),
          List.filter_cons_of_neg (by simpa using hqa)]
        exact ihrest

lemma senderMatches_true_iff {u : UserId} {e : String} {s : SenderRec} :
    senderMatches u e s = true ↔ s.userId = u ∧ s.emailAddress = e := by
  simp [senderMatches]

/-- One `getOrCreateSender` call preserves the store invariants, leaves every
other pair's rows untouched, and for its own pair turns no row into one row
with count 1 and one row into one row with the count incremented. -/
lemma getOrCreateSender_step (db : Db) (u : UserId) (n e : String)
    (hInv : SenderInv db) :
    SenderInv (getOrCreateSender db u n e).2 ∧
    (senderRows db u e = [] →
      ∃ s', senderRows (getOrCreateSender db u n e).2 u e = [s'] ∧
        s'.totalEmails = 1) ∧
    (∀ s, senderRows db u e = [s] →
      ∃ s', senderRows (getOrCreateSender db u n e).2 u e = [s'] ∧
        s'.totalEmails = s.totalEmails + 1) ∧
    (∀ u' e', ¬(u' = u ∧ e' = e) →
      senderRows (getOrCreateSender db u n e).2 u' e' =
        senderRows db u' e') := by
  obtain ⟨hnodup, hbound, huniq⟩ := hInv
  unfold getOrCreateSender
  rcases hf : db.senders.find? (senderMatches u e) with _ | s
  · -- absent: a fresh row is inserted
    have hnone : ∀ x ∈ db.senders, ¬ senderMatches u e x = true :=
      fun x hx => by
        have := List.find?_eq_none.mp hf x hx
        simpa using this
    have hrows0 : senderRows db u e = [] :=
      List.filter_eq_nil.mpr hnone
    set newRec : SenderRec :=
      { id := db.nextId, userId := u, name := n, emailAddress := e,
        domain := (jsSplit e '@').get? 1, totalEmails := 1 } with hnew
    have hmatchNew : senderMatches u e newRec = true := by
      simp [senderMatches, hnew]
    have hrowsSame : (db.senders ++ [newRec]).filter (senderMatches u e)
        = [newRec] := by
      rw [List.filter_append, List.filter_eq_nil.mpr hnone,
        List.filter_cons_of_pos hmatchNew]
      rfl
    have hrowsOther : ∀ u' e', ¬(u' = u ∧ e' = e) →
        (db.senders ++ [newRec]).filter (senderMatches u' e') =
          db.senders.filter (senderMatches u' e') := by
      intro u' e' hne
      have hq : senderMatches u' e' newRec = false := by
        simp only [senderMatches, hnew, beq_iff_eq, Bool.and_eq_false_iff]
        by_cases h1 : u = u'
        · by_cases h2 : e = e'
          · exact absurd ⟨h1.symm, h2.symm⟩ hne
          · exact Or.inr (by simpa using h2)
        · exact Or.inl (by simpa using h1)
      rw [List.filter_append, List.filter_cons_of_neg (by simp [hq]),
        List.filter_nil, List.append_nil]
    refine ⟨⟨?_, ?_, ?_⟩, ?_, ?_, ?_⟩
    · dsimp only
      rw [List.map_append]
      refine List.Nodup.append hnodup (List.nodup_singleton _) ?_
      intro a ha hb
      simp only [List.map_cons, List.map_nil, List.mem_singleton] at hb
      rcases List.mem_map.mp ha with ⟨x, hx, rfl⟩
      have := hbound x hx
      omega
    · dsimp only
      intro x hx
      rcases List.mem_append.mp hx with hx | hx
      · have := hbound x hx
        omega
      · simp only [List.mem_singleton] at hx
        rw [hx]
        show db.nextId < db.nextId + 1
        omega
    · intro u' e'
      dsimp only [senderRows]
      by_cases hk : u' = u ∧ e' = e
      · rw [hk.1, hk.2, hrowsSame]
        exact le_refl 1
      · rw [hrowsOther u' e' hk]
        exact huniq u' e'
    · intro _
      exact ⟨newRec, hrowsSame, rfl⟩
    · intro s hs
      rw [hrows0] at hs
      simp at hs
    · intro u' e' hne
      exact hrowsOther u' e' hne
  · -- present: the unique matching row is bumped
    have hmatch : senderMatches u e s = true := List.find?_some hf
    have hmem : s ∈ db.senders := List.mem_of_find?_eq_some hf
    have hinj : ∀ x ∈ db.senders, x.id = s.id → x = s := by
      intro x hx hxid
      exact List.inj_on_of_nodup_map hnodup hx hmem hxid
    have hrows : senderRows db u e = [s] :=
      eq_singleton_of_mem_of_length_le_one
        (List.mem_filter.mpr ⟨hmem, hmatch⟩) (huniq u e)
    set s' : SenderRec := { s with totalEmails := s.totalEmails + 1 }
      with hs'
    have hfields : s.userId = u ∧ s.emailAddress = e :=
      senderMatches_true_iff.mp hmatch
    have hmatch' : senderMatches u e s' = true := by
      simp [senderMatches, hs', hfields.1, hfields.2]
    have hrowsSame : (db.senders.map
        (fun x => if x.id == s.id then s' else x)).filter (senderMatches u e)
        = [s'] :=
      filter_map_update hinj hmatch' rfl hrows
    have hrowsOther : ∀ u' e', ¬(u' = u ∧ e' = e) →
        (db.senders.map
          (fun x => if x.id == s.id then s' else x)).filter
            (senderMatches u' e') =
          db.senders.filter (senderMatches u' e') := by
      intro u' e' hne
      have hqfalse : ∀ z : SenderRec, z.userId = u → z.emailAddress = e →
          senderMatches u' e' z = false := by
        intro z hz1 hz2
        simp only [senderMatches, hz1, hz2, beq_iff_eq,
          Bool.and_eq_false_iff]
        by_cases h1 : u = u'
        · by_cases h2 : e = e'
          · exact absurd ⟨h1.symm, h2.symm⟩ hne
          · exact Or.inr (by simpa using h2)
        · exact Or.inl (by simpa using h1)
      exact filter_map_update_other hinj
        (hqfalse s hfields.1 hfields.2) (hqfalse s' hfields.1 hfields.2)
    have hids : (db.senders.map
        (fun x => if x.id == s.id then s' else x)).map (fun x => x.id)
        = db.senders.map (fun x => x.id) := by
      rw [List.map_map]
      apply List.map_congr_left
      intro x _
      simp only [Function.comp]
      by_cases hx : (x.id == s.id) = true
      · rw [if_pos hx, hs']
        exact (beq_iff_eq.mp hx).symm
      · rw [if_neg hx]
    refine ⟨⟨?_, ?_, ?_⟩, ?_, ?_, ?_⟩
    · dsimp only
      rw [hids]
      exact hnodup
    · dsimp only
      intro y hy
      rcases List.mem_map.mp hy with ⟨x, hx, rfl⟩
      by_cases hxid : (x.id == s.id) = true
      · rw [if_pos hxid]
        have : s'.id = s.id := rfl
        rw [this, ← beq_iff_eq.mp hxid]
        exact hbound x hx
      · rw [if_neg hxid]
        exact hbound x hx
    · intro u' e'
      dsimp only [senderRows]
      by_cases hk : u' = u ∧ e' = e
      · rw [hk.1, hk.2, hrowsSame]
        exact le_refl 1
      · rw [hrowsOther u' e' hk]
        exact huniq u' e'
    · intro h0
      rw [hrows] at h0
      simp at h0
    · intro s0 hs0
      rw [hrows] at hs0
      have : s = s0 := (List.cons_eq_cons.mp hs0).1
      exact ⟨s', hrowsSame, by rw [← this]⟩
    · intro u' e' hne
      exact hrowsOther u' e' hne

/-- Running a resolution trace keeps the registry invariants and turns the
rows of each pair into exactly one row whose count grows by the number of
calls for that pair. -/
lemma resolveCalls_spec (calls : List (UserId × String × String)) (db : Db)
    (hInv : SenderInv db) (u : UserId) (e : String) :
    SenderInv (resolveCalls calls db) ∧
    (senderRows db u e = [] →
      (senderRows (resolveCalls calls db) u e).map (fun s => s.totalEmails) =
        if callCount calls u e = 0 then [] else [callCount calls u e]) ∧
    (∀ s, senderRows db u e = [s] →
      (senderRows (resolveCalls calls db) u e).map (fun s => s.totalEmails) =
        [s.totalEmails + callCount calls u e]) := by
  induction calls generalizing db with
  | nil =>
    refine ⟨hInv, ?_, ?_⟩
    · intro h0
      rw [show resolveCalls [] db = db from rfl, h0]
      simp [callCount]
    · intro s hs
      rw [show resolveCalls [] db = db from rfl, hs]
      simp [callCount]
  | cons c rest ih =>
    obtain ⟨cu, cn, ce⟩ := c
    have hstep := getOrCreateSender_step db cu cn ce hInv
    have hres : resolveCalls ((cu, cn, ce) :: rest) db =
        resolveCalls rest (getOrCreateSender db cu cn ce).2 := rfl
    by_cases hk : cu = u ∧ ce = e
    · obtain ⟨h1, h2⟩ := hk
      subst h1
      subst h2
      have hcnt1 : callCount ((cu, cn, ce) :: rest) cu ce =
          callCount rest cu ce + 1 := by
        simp [callCount, List.countP_cons]
      refine ⟨by rw [hres]; exact (ih _ hstep.1).1, ?_, ?_⟩
      · intro h0
        obtain ⟨s', hrows', hs'1⟩ := hstep.2.1 h0
        rw [hres, (ih _ hstep.1).2.2 s' hrows', hs'1, hcnt1,
          if_neg (by omega)]
        congr 1
        omega
      · intro s hs
        obtain ⟨s', hrows', hs'1⟩ := hstep.2.2.1 s hs
        rw [hres, (ih _ hstep.1).2.2 s' hrows', hs'1, hcnt1]
        congr 1
        omega
    · have hrowseq : senderRows (getOrCreateSender db cu cn ce).2 u e =
          senderRows db u e :=
        hstep.2.2.2 u e (fun h => hk ⟨h.1.symm, h.2.symm⟩)
      have hb : ((cu == u) && (ce == e)) = false := by
        by_cases h1 : cu = u
        · by_cases h2 : ce = e
          · exact absurd ⟨h1, h2⟩ hk
          · simp [h2]
        · simp [h1]
      have hcnt0 : callCount ((cu, cn, ce) :: rest) u e =
          callCount rest u e := by
        simp [callCount, List.countP_cons, hb]
      refine ⟨by rw [hres]; exact (ih _ hstep.1).1, ?_, ?_⟩
      · intro h0
        rw [hres, hcnt0]
        exact (ih _ hstep.1).2.1 (by rw [hrowseq]; exact h0)
      · intro s hs
        rw [hres, hcnt0]
        exact (ih _ hstep.1).2.2 s (by rw [hrowseq]; exact hs)

lemma contains_iff_mem {l : List String} {a : String} :
    l.contains a = true ↔ a ∈ l :=
  List.elem_iff

/-- Membership in the per-user dedup set: some item carries the id and is
joined to a snapshot of that user. -/
lemma getExistingMessageIds_iff {db : Db} {uid : UserId} {mid : String} :
    mid ∈ getExistingMessageIds db uid ↔
    ∃ it ∈ db.items, it.messageId = mid ∧
      ∃ s ∈ db.snapshots, s.id = it.snapshotId ∧ s.userId = uid := by
  unfold getExistingMessageIds
  simp only [List.mem_map, List.mem_filter, List.any_eq_true,
    Bool.and_eq_true, beq_iff_eq]
  constructor
  · rintro ⟨it, ⟨hit, s, hs, hsid, hsu⟩, hmid⟩
    exact ⟨it, hit, hmid, s, hs, hsid, hsu⟩
  · rintro ⟨it, hit, hmid, s, hs, hsid, hsu⟩
    exact ⟨it, ⟨hit, s, hs, hsid, hsu⟩, hmid⟩

/-- `createSnapshot` never changes which user it is about. -/
lemma createSnapshot_user_id (plans : SubscriptionTier → PlanLimits)
    (maxE : ℕ) (t : TimeModel) (fetch : ℕ → Except String (List Email))
    (σ : String → Option SummaryResult) (u0 : UserRec) (db0 : Db) :
    (createSnapshot plans maxE t fetch σ u0 db0).user.id = u0.id := by
  unfold createSnapshot
  rcases hq : incrementSnapshotUsage plans t u0 with qe | u1
  · rfl
  · dsimp only
    have hid1 : u1.id = u0.id := (incrementSnapshotUsage_ok hq).2.2.2
    have hday : u1.lastUsageResetDay = some t.day :=
      (incrementSnapshotUsage_ok hq).2.2.1
    have hck : checkUsageLimits plans t u1 =
        (u1, (checkUsageLimits plans t u1).2) := by
      rw [Prod.ext_iff]
      exact ⟨by rw [checkUsageLimits_fst, reset_noop hday], rfl⟩
    rw [hck]
    dsimp only
    rcases fetch (min (checkUsageLimits plans t u1).2.maxEmailsAllowed maxE)
      with msg | emails
    · exact hid1
    · dsimp only
      split
      · exact hid1
      · split
        · exact hid1
        · split
          · exact hid1
          · exact hid1

/-- After a successful run in which no fetched message was skipped, every
fetched message id sits in the user's dedup set. -/
lemma createSnapshot_success_covers (plans : SubscriptionTier → PlanLimits)
    (maxE : ℕ) (t : TimeModel) (fetch : ℕ → Except String (List Email))
    (σ : String → Option SummaryResult) (u0 : UserRec) (db0 : Db)
    (L : List Email) (r : CreateSnapshotResult)
    (hfetch : ∀ k, fetch k = .ok L)
    (hr : (createSnapshot plans maxE t fetch σ u0 db0).result = .ok r)
    (hs : r.success = true)
    (hnoskip : ∀ e ∈ L, summaryUsable (σ (messageText e)) = true) :
    ∀ e ∈ L, e.messageId ∈
      getExistingMessageIds (createSnapshot plans maxE t fetch σ u0 db0).db
        u0.id := by
  unfold createSnapshot at hr ⊢
  rcases hq : incrementSnapshotUsage plans t u0 with qe | u1
  · rw [hq] at hr
    dsimp only at hr
    exact absurd hr (by simp)
  · rw [hq] at hr
    dsimp only at hr ⊢
    rcases hck : checkUsageLimits plans t u1 with ⟨u2, limits⟩
    rw [hck] at hr
    dsimp only at hr ⊢
    rw [hfetch (min limits.maxEmailsAllowed maxE)] at hr ⊢
    dsimp only at hr ⊢
    by_cases hL : L.isEmpty = true
    · rw [if_pos hL] at hr
      injection hr with hr'
      rw [← hr'] at hs
      exact absurd hs (by decide)
    · rw [if_neg hL] at hr ⊢
      by_cases hN : (L.filter (fun e =>
          !((getExistingMessageIds db0 u0.id).contains e.messageId))).isEmpty
          = true
      · rw [if_pos hN] at hr
        injection hr with hr'
        rw [← hr'] at hs
        exact absurd hs (by decide)
      · rw [if_neg hN] at hr ⊢
        rcases hsnap : createSnapshotRecord t db0 u0.id with ⟨snap, db1⟩
        rw [hsnap] at hr
        dsimp only at hr ⊢
        rcases hitems : processEmailsToItems σ snap.id u0.id
            (L.filter (fun e =>
              !((getExistingMessageIds db0 u0.id).contains e.messageId))) db1
          with ⟨items, db2⟩
        rw [hitems] at hr
        dsimp only at hr ⊢
        by_cases hI : items.isEmpty = true
        · rw [if_pos hI] at hr
          injection hr with hr'
          rw [← hr'] at hs
          exact absurd hs (by decide)
        · rw [if_neg hI] at hr ⊢
          dsimp only at hr ⊢
          -- shape of the first run's store
          have hsnapFst := congrArg Prod.fst hsnap
          have hsnapSnd := congrArg Prod.snd hsnap
          unfold createSnapshotRecord at hsnapFst hsnapSnd
          dsimp only at hsnapFst hsnapSnd
          have hsnapU : snap.userId = u0.id := by rw [← hsnapFst]
          have hdb1items : db1.items = db0.items := by rw [← hsnapSnd]
          have hdb1snaps : db1.snapshots = db0.snapshots ++ [snap] := by
            rw [← hsnapSnd, ← hsnapFst]
          have hdb2items := processEmailsToItems_items σ snap.id u0.id
            (L.filter (fun e =>
              !((getExistingMessageIds db0 u0.id).contains e.messageId))) db1
          rw [hitems] at hdb2items
          have hdb2snaps := processEmailsToItems_snapshots σ snap.id u0.id
            (L.filter (fun e =>
              !((getExistingMessageIds db0 u0.id).contains e.messageId))) db1
          rw [hitems] at hdb2snaps
          dsimp only at hdb2items hdb2snaps
          have hcov := processEmailsToItems_covers σ snap.id u0.id
            (L.filter (fun e =>
              !((getExistingMessageIds db0 u0.id).contains e.messageId))) db1
          have hshape := processEmailsToItems_shape σ snap.id u0.id
            (L.filter (fun e =>
              !((getExistingMessageIds db0 u0.id).contains e.messageId))) db1
          rw [hitems] at hcov hshape
          dsimp only at hcov hshape
          have hg : ∀ s : SnapshotRec,
              ((if s.id == snap.id then
                { s with totalItems := items.length } else s).id = s.id ∧
               (if s.id == snap.id then
                { s with totalItems := items.length } else s).userId
                 = s.userId) := by
            intro s
            split <;> exact ⟨rfl, rfl⟩
          intro e he
          rw [getExistingMessageIds_iff]
          by_cases hmem : e.messageId ∈ getExistingMessageIds db0 u0.id
          · -- already deduplicated before this run
            obtain ⟨it, hit, hmid, s, hsmem, hsid, hsu⟩ :=
              getExistingMessageIds_iff.mp hmem
            refine ⟨it, ?_, hmid, ?_⟩
            · dsimp only
              rw [hdb2items, hdb1items]
              exact List.mem_append_left _ hit
            · refine ⟨(if s.id == snap.id then
                { s with totalItems := items.length } else s), ?_, ?_, ?_⟩
              · dsimp only
                rw [hdb2snaps, hdb1snaps]
                exact List.mem_map_of_mem _
                  (List.mem_append_left _ hsmem)
              · rw [(hg s).1, hsid]
              · rw [(hg s).2, hsu]
          · -- freshly written by this run
            have hfil : e ∈ L.filter (fun e =>
                !((getExistingMessageIds db0 u0.id).contains e.messageId)) :=
              List.mem_filter.mpr ⟨he, by
                simp only [Bool.not_eq_true']
                rw [← Bool.not_eq_true]
                intro hcon
                exact hmem (contains_iff_mem.mp hcon)⟩
            have hinitems := hcov e hfil (hnoskip e he)
            obtain ⟨it, hit, hmid⟩ := List.mem_map.mp hinitems
            obtain ⟨hsnapid, _, _⟩ := hshape it hit
            refine ⟨it, ?_, hmid, ?_⟩
            · dsimp only
              rw [hdb2items]
              exact List.mem_append_right _ hit
            · refine ⟨(if snap.id == snap.id then
                { snap with totalItems := items.length } else snap), ?_, ?_, ?_⟩
              · dsimp only
                rw [hdb2snaps, hdb1snaps]
                exact List.mem_map_of_mem _
                  (List.mem_append_right _ (List.mem_singleton_self snap))
              · rw [(hg snap).1, hsnapid]
              · rw [(hg snap).2, hsnapU]

/-- When the quota allows it and every fetched message id is already in the
user's dedup set, `createSnapshot` returns the all-deduplicated failure and
leaves the store untouched — no Snapshot row is created. -/
lemma createSnapshot_all_dedup (plans : SubscriptionTier → PlanLimits)
    (maxE : ℕ) (t : TimeModel) (fetch : ℕ → Except String (List Email))
    (σ : String → Option SummaryResult) (u : UserRec) (db : Db)
    (L : List Email)
    (hfetch : ∀ k, fetch k = .ok L)
    (hq : ∃ u', incrementSnapshotUsage plans t u = .ok u')
    (hL : L ≠ [])
    (hcov : ∀ e ∈ L, e.messageId ∈ getExistingMessageIds db u.id) :
    (createSnapshot plans maxE t fetch σ u db).result =
      .ok { success := false, message := noNewAfterDedupMsg,
            snapshotId := none, totalItems := none,
            newEmailsProcessed := none } ∧
    (createSnapshot plans maxE t fetch σ u db).db = db := by
  obtain ⟨u', hq⟩ := hq
  unfold createSnapshot
  rw [hq]
  dsimp only
  rcases hck : checkUsageLimits plans t u' with ⟨u2, limits⟩
  dsimp only
  rw [hfetch (min limits.maxEmailsAllowed maxE)]
  dsimp only
  rw [if_neg (by simpa [List.isEmpty_iff] using hL)]
  have hfil : L.filter (fun e =>
      !((getExistingMessageIds db u.id).contains e.messageId)) = [] := by
    apply List.filter_eq_nil.mpr
    intro e he
    have hc := contains_iff_mem.mpr (hcov e he)
    simp [hc]
    exact hcov e he
  rw [hfil]
  exact ⟨rfl, rfl⟩

end Lemmas

/-- C1: the sweeper as shipped deletes a 10-hour-old snapshot (and its item)
whose 72-hour retention window has 62 hours left: it selects on
`createdAt < now - 1h`, not on `retentionExpiresAt` having passed. -/
theorem c1_sweeper_deletes_unexpired_snapshot :
    let t : TimeModel := { now := 360000000000, day := 0 }
    let snap : SnapshotRec :=
      { id := 0, userId := "u1", createdAt := t.now - 10 * 60 * 60 * 1000,
        retentionExpiresAt := t.now - 10 * 60 * 60 * 1000 + retentionWindowMs,
        totalItems := 1 }
    let item : ItemRec :=
      { id := 1, snapshotId := 0, senderId := 2, messageId := "m1",
        summary := "s", priorityScore := 0, priorityLabel := .medium }
    let db : Db := { snapshots := [snap], items := [item], senders := [],
                     nextId := 3 }
    t.now < snap.retentionExpiresAt ∧
      (cleanupExpiredSnapshots t db).snapshots = [] ∧
      (cleanupExpiredSnapshots t db).items = [] := by
  refine ⟨by norm_num [retentionWindowMs], ?_, ?_⟩ <;>
    simp [cleanupExpiredSnapshots, retentionWindowMs]

/-- A demo plan table: unlimited daily snapshots, ten emails per snapshot. -/
def demoPlans : SubscriptionTier → PlanLimits := fun _ =>
  { maxSnapshotsPerDay := 999, maxEmailsPerSnapshot := 10,
    totalSnapshotsAllowed := none }

def demoTime : TimeModel := { now := 1000, day := 5 }

/-- A demo pro-tier user with no expiry fields and a reset day of today. -/
def demoUser : UserRec :=
  { id := "u1", subscriptionTier := .pro, trialExpiresAt := none,
    subscriptionExpiresAt := none, snapshotsCreatedToday := 0,
    totalSnapshotsCreated := 0, emailsSummarizedToday := 0,
    totalEmailsSummarized := 0, lastSnapshotDate := none,
    lastUsageResetDay := some 5 }

def demoEmailGood : Email :=
  { messageId := "m1", sender := "A", senderEmail := "a@x.com",
    subject := "s1", snippet := none, body := "good", labelIds := none,
    sizeEstimate := none, date := 0 }

def demoEmailJunk : Email :=
  { messageId := "m2", sender := "B", senderEmail := "b@y.com",
    subject := "s2", snippet := none, body := "junk", labelIds := none,
    sizeEstimate := none, date := 0 }

/-- A summarizer that answers for the `good` body and skips everything
else. -/
def demoSummarizerPartial : String → Option SummaryResult := fun msg =>
  if msg = "good" then some { content := "sum", finishReason := none }
  else none

/-- A summarizer that never skips. -/
def demoSummarizerTotal : String → Option SummaryResult := fun _ =>
  some { content := "sum", finishReason := none }

def demoFetchOne : ℕ → Except String (List Email) := fun _ =>
  .ok [demoEmailGood]

def demoFetchTwo : ℕ → Except String (List Email) := fun _ =>
  .ok [demoEmailGood, demoEmailJunk]

/-- C7 counterexample: first call processes `m1` but the summarizer skips
`m2`; the second call with the unchanged mailbox does return the
all-deduplicated failure message, yet it creates a second (empty) Snapshot
row — the store grows from one snapshot to two. -/
theorem c7_counterexample_second_call_creates_row :
    (createSnapshot demoPlans 50 demoTime demoFetchTwo demoSummarizerPartial
        demoUser emptyDb).result = .ok
      { success := true,
        message := "Successfully created snapshot with 1 email summaries.",
        snapshotId := some 0, totalItems := some 1,
        newEmailsProcessed := some 2 } ∧
    (createSnapshot demoPlans 50 demoTime demoFetchTwo demoSummarizerPartial
        (createSnapshot demoPlans 50 demoTime demoFetchTwo
          demoSummarizerPartial demoUser emptyDb).user
        (createSnapshot demoPlans 50 demoTime demoFetchTwo
          demoSummarizerPartial demoUser emptyDb).db).result = .ok
      { success := false, message := noNewAfterDedupMsg, snapshotId := none,
        totalItems := none, newEmailsProcessed := none } ∧
    (createSnapshot demoPlans 50 demoTime demoFetchTwo demoSummarizerPartial
      demoUser emptyDb).db.snapshots.length = 1 ∧
    (createSnapshot demoPlans 50 demoTime demoFetchTwo demoSummarizerPartial
        (createSnapshot demoPlans 50 demoTime demoFetchTwo
          demoSummarizerPartial demoUser emptyDb).user
        (createSnapshot demoPlans 50 demoTime demoFetchTwo
          demoSummarizerPartial demoUser emptyDb).db).db.snapshots.length
      = 2 :=
  ⟨rfl, rfl, rfl, rfl⟩

/-- C7 (amended): when the mailbox is unchanged, the quota permits the second
call, the first call succeeded, and the summarizer skipped none of the
fetched messages, the second call finds every fetched id among the user's
existing items and returns the all-deduplicated `{success := false}` without
touching the store — in particular it creates no Snapshot row. -/
theorem c7_dedup_idempotent_without_skips
    (plans : SubscriptionTier → PlanLimits) (maxE : ℕ) (t1 t2 : TimeModel)
    (fetch : ℕ → Except String (List Email))
    (σ : String → Option SummaryResult) (u0 : UserRec) (db0 : Db)
    (L : List Email) (r : CreateSnapshotResult) (u' : UserRec)
    (hfetch : ∀ k, fetch k = .ok L)
    (hr : (createSnapshot plans maxE t1 fetch σ u0 db0).result = .ok r)
    (hs : r.success = true)
    (hnoskip : ∀ e ∈ L, summaryUsable (σ (messageText e)) = true)
    (hq2 : incrementSnapshotUsage plans t2
      (createSnapshot plans maxE t1 fetch σ u0 db0).user = .ok u') :
    (∀ e ∈ L, e.messageId ∈ getExistingMessageIds
      (createSnapshot plans maxE t1 fetch σ u0 db0).db
      (createSnapshot plans maxE t1 fetch σ u0 db0).user.id) ∧
    (createSnapshot plans maxE t2 fetch σ
        (createSnapshot plans maxE t1 fetch σ u0 db0).user
        (createSnapshot plans maxE t1 fetch σ u0 db0).db).result =
      .ok { success := false, message := noNewAfterDedupMsg,
            snapshotId := none, totalItems := none,
            newEmailsProcessed := none } ∧
    (createSnapshot plans maxE t2 fetch σ
        (createSnapshot plans maxE t1 fetch σ u0 db0).user
        (createSnapshot plans maxE t1 fetch σ u0 db0).db).db =
      (createSnapshot plans maxE t1 fetch σ u0 db0).db := by
  have hLne : L ≠ [] := by
    intro hnil
    subst hnil
    unfold createSnapshot at hr
    rcases hq1 : incrementSnapshotUsage plans t1 u0 with qe | u1 <;>
      rw [hq1] at hr <;> dsimp only at hr
    · exact absurd hr (by simp)
    · rw [hfetch ((checkUsageLimits plans t1 u1).2.maxEmailsAllowed ⊓ maxE)]
        at hr
      simp at hr
      rw [← hr] at hs
      simp at hs
  have hid := createSnapshot_user_id plans maxE t1 fetch σ u0 db0
  have hcov := createSnapshot_success_covers plans maxE t1 fetch σ u0 db0 L r
    hfetch hr hs hnoskip
  have hcov' : ∀ e ∈ L, e.messageId ∈ getExistingMessageIds
      (createSnapshot plans maxE t1 fetch σ u0 db0).db
      (createSnapshot plans maxE t1 fetch σ u0 db0).user.id := by
    intro e he
    rw [hid]
    exact hcov e he
  have hmain := createSnapshot_all_dedup plans maxE t2 fetch σ
    (createSnapshot plans maxE t1 fetch σ u0 db0).user
    (createSnapshot plans maxE t1 fetch σ u0 db0).db L hfetch ⟨u', hq2⟩
    hLne hcov'
  exact ⟨hcov', hmain.1, hmain.2⟩

/-- C7 witness: one email, a summarizer that never skips — the amended
theorem applied to the concrete run. -/
theorem c7_witness :
    (createSnapshot demoPlans 50 demoTime demoFetchOne demoSummarizerTotal
        (createSnapshot demoPlans 50 demoTime demoFetchOne
          demoSummarizerTotal demoUser emptyDb).user
        (createSnapshot demoPlans 50 demoTime demoFetchOne
          demoSummarizerTotal demoUser emptyDb).db).result =
      .ok { success := false, message := noNewAfterDedupMsg,
            snapshotId := none, totalItems := none,
            newEmailsProcessed := none } ∧
    (createSnapshot demoPlans 50 demoTime demoFetchOne demoSummarizerTotal
        (createSnapshot demoPlans 50 demoTime demoFetchOne
          demoSummarizerTotal demoUser emptyDb).user
        (createSnapshot demoPlans 50 demoTime demoFetchOne
          demoSummarizerTotal demoUser emptyDb).db).db =
      (createSnapshot demoPlans 50 demoTime demoFetchOne demoSummarizerTotal
        demoUser emptyDb).db := by
  have h := c7_dedup_idempotent_without_skips demoPlans 50 demoTime demoTime
    demoFetchOne demoSummarizerTotal demoUser emptyDb [demoEmailGood]
    { success := true,
      message := "Successfully created snapshot with 1 email summaries.",
      snapshotId := some 0, totalItems := some 1,
      newEmailsProcessed := some 1 }
    { id := "u1", subscriptionTier := .pro, trialExpiresAt := none,
      subscriptionExpiresAt := none, snapshotsCreatedToday := 2,
      totalSnapshotsCreated := 2, emailsSummarizedToday := 1,
      totalEmailsSummarized := 1, lastSnapshotDate := some 1000,
      lastUsageResetDay := some 5 }
    (fun _ => rfl) rfl rfl (fun e _ => rfl) rfl
  exact ⟨h.2.1, h.2.2⟩

/-- C8: starting from an empty registry, after any sequence of
`resolveSender` calls each `(userId, email)` pair has exactly one Sender row
when it was resolved at least once (none otherwise), and that row's
`totalEmails` equals the number of resolution calls made for the pair. -/
theorem c8_sender_registry_unique_and_counted
    (calls : List (UserId × String × String)) (u : UserId) (e : String) :
    ((senderRows (resolveCalls calls emptyDb) u e).length =
      if callCount calls u e = 0 then 0 else 1) ∧
    (∀ s ∈ senderRows (resolveCalls calls emptyDb) u e,
      s.totalEmails = callCount calls u e) := by
  have h := resolveCalls_spec calls emptyDb senderInv_empty u e
  have hmap := h.2.1 rfl
  constructor
  · have hlen := congrArg List.length hmap
    rw [List.length_map] at hlen
    by_cases hc : callCount calls u e = 0
    · rw [if_pos hc] at hlen
      rw [if_pos hc]
      simpa using hlen
    · rw [if_neg hc] at hlen
      rw [if_neg hc]
      simpa using hlen
  · intro s hs
    have hmem : s.totalEmails ∈
        (senderRows (resolveCalls calls emptyDb) u e).map
          (fun s => s.totalEmails) :=
      List.mem_map_of_mem _ hs
    rw [hmap] at hmem
    by_cases hc : callCount calls u e = 0
    · rw [if_pos hc] at hmem
      simp at hmem
    · rw [if_neg hc] at hmem
      simpa using hmem

/-- C8 witness: two calls for `(u1, a@x.com)` and one for `(u2, a@x.com)`
leave exactly one `u1` row, and its count is the number of `u1` calls. -/
theorem c8_witness :
    let callsW : List (UserId × String × String) :=
      [("u1", "A", "a@x.com"), ("u1", "B", "a@x.com"), ("u2", "C", "a@x.com")]
    (senderRows (resolveCalls callsW emptyDb) "u1" "a@x.com").length = 1 ∧
    ({ id := 0, userId := "u1", name := "A", emailAddress := "a@x.com",
       domain := some "x.com", totalEmails := 2 } : SenderRec).totalEmails =
      callCount callsW "u1" "a@x.com" := by
  intro callsW
  exact ⟨(c8_sender_registry_unique_and_counted callsW "u1" "a@x.com").1.trans
      (by decide),
    (c8_sender_registry_unique_and_counted callsW "u1" "a@x.com").2 _
      (by decide)⟩

/-- C9: `getSnapshotWithItems` returns a snapshot only when it belongs to the
requesting user, and a nonexistent id and an id owned by a different user
produce the identical `Snapshot not found` error. -/
theorem c9_getSnapshotWithItems_owner_or_not_found (db : Db) (userId : UserId)
    (sid : ℕ) :
    (∀ s its, getSnapshotWithItems db userId sid = .ok (s, its) →
      s.userId = userId ∧ s.id = sid) ∧
    ((∀ s ∈ db.snapshots, s.id ≠ sid) →
      getSnapshotWithItems db userId sid = .error "Snapshot not found") ∧
    ((∀ s ∈ db.snapshots, s.id = sid → s.userId ≠ userId) →
      getSnapshotWithItems db userId sid = .error "Snapshot not found") := by
  unfold getSnapshotWithItems
  refine ⟨?_, ?_, ?_⟩
  · intro s its h
    rcases hf : db.snapshots.find? (fun s => s.id == sid && s.userId == userId)
      with _ | v
    · rw [hf] at h; exact absurd h (by simp)
    · rw [hf] at h
      have hv := List.find?_some hf
      simp only [Bool.and_eq_true, beq_iff_eq] at hv
      have : v = s := by
        have := h
        simp only [Except.ok.injEq, Prod.mk.injEq] at this
        exact this.1
      subst this
      exact ⟨hv.2, hv.1⟩
  · intro hno
    have : db.snapshots.find? (fun s => s.id == sid && s.userId == userId)
        = none := by
      apply List.find?_eq_none.mpr
      intro s hs
      simp only [Bool.and_eq_true, beq_iff_eq, not_and]
      intro h1
      exact absurd h1 (hno s hs)
    rw [this]
  · intro hcross
    have : db.snapshots.find? (fun s => s.id == sid && s.userId == userId)
        = none := by
      apply List.find?_eq_none.mpr
      intro s hs
      simp only [Bool.and_eq_true, beq_iff_eq, not_and]
      exact hcross s hs
    rw [this]

/-- C9 witness: in a store holding exactly alice's snapshot 0, bob's request
for snapshot 0 and alice's request for the nonexistent snapshot 99 both
return the identical not-found error. -/
theorem c9_witness :
    let snap : SnapshotRec :=
      { id := 0, userId := "alice", createdAt := 0, retentionExpiresAt := 0,
        totalItems := 0 }
    let db : Db := { snapshots := [snap], items := [], senders := [],
                     nextId := 1 }
    getSnapshotWithItems db "bob" 0 = .error "Snapshot not found" ∧
      getSnapshotWithItems db "alice" 99 = .error "Snapshot not found" :=
  ⟨(c9_getSnapshotWithItems_owner_or_not_found _ "bob" 0).2.2 (by decide),
   (c9_getSnapshotWithItems_owner_or_not_found _ "alice" 99).2.1 (by decide)⟩

/-- C2 counterexample: for a free-tier user the quota reservation throws
`No active subscription found.`, but `createSnapshot` surfaces the wrapped
`Failed to create snapshot: ...` message — not the quota error verbatim. -/
theorem c2_counterexample_wrapped_not_verbatim :
    let plansW : SubscriptionTier → PlanLimits := fun _ =>
      { maxSnapshotsPerDay := 3, maxEmailsPerSnapshot := 10,
        totalSnapshotsAllowed := none }
    let tW : TimeModel := { now := 1000, day := 5 }
    let freeU : UserRec :=
      { id := "u2", subscriptionTier := .free, trialExpiresAt := none,
        subscriptionExpiresAt := none, snapshotsCreatedToday := 0,
        totalSnapshotsCreated := 0, emailsSummarizedToday := 0,
        totalEmailsSummarized := 0, lastSnapshotDate := none,
        lastUsageResetDay := some 5 }
    incrementSnapshotUsage plansW tW freeU =
      .error QuotaError.noActiveAccess ∧
    (createSnapshot plansW 50 tW (fun _ => .ok []) (fun _ => none) freeU
      emptyDb).result =
      .error "Failed to create snapshot: No active subscription found." ∧
    "Failed to create snapshot: No active subscription found." ≠
      QuotaError.noActiveAccess.message := by
  exact ⟨rfl, rfl, by decide⟩

/-- C2 amended: when the quota reservation fails, `createSnapshot` aborts
before any fetch, with the specific quota message embedded in the wrapper
`Failed to create snapshot: <quota message>` (not verbatim); the variant is
chosen in the priority order trial expired, subscription expired, no active
access, daily cap reached. -/
theorem c2_quota_error_wrapped_in_priority_order :
    (∀ (plans : SubscriptionTier → PlanLimits) (maxE : ℕ) (t : TimeModel)
        (fetch : ℕ → Except String (List Email))
        (σ : String → Option SummaryResult) (u : UserRec) (db : Db)
        (qe : QuotaError),
      incrementSnapshotUsage plans t u = .error qe →
        (createSnapshot plans maxE t fetch σ u db).result =
          .error ("Failed to create snapshot: " ++ qe.message) ∧
        (createSnapshot plans maxE t fetch σ u db).fetchCalled = false ∧
        (createSnapshot plans maxE t fetch σ u db).db = db) ∧
    (∀ (plans : SubscriptionTier → PlanLimits) (t : TimeModel) (u : UserRec),
      (checkUsageLimits plans t u).2.canCreateSnapshot = false →
      incrementSnapshotUsage plans t u = .error
        (if (checkUsageLimits plans t u).2.isTrialExpired then .trialExpired
         else if (checkUsageLimits plans t u).2.isSubscriptionExpired then
           .subscriptionExpired
         else if !(checkUsageLimits plans t u).2.hasActiveAccess then
           .noActiveAccess
         else .dailyLimitReached)) := by
  constructor
  · intro plans maxE t fetch σ u db qe h
    unfold createSnapshot
    rw [h]
    exact ⟨rfl, rfl, rfl⟩
  · exact incrementSnapshotUsage_error_order

/-- C2 witness: the amended theorem at the concrete free-tier input. -/
theorem c2_witness :
    let plansW : SubscriptionTier → PlanLimits := fun _ =>
      { maxSnapshotsPerDay := 3, maxEmailsPerSnapshot := 10,
        totalSnapshotsAllowed := none }
    let tW : TimeModel := { now := 1000, day := 5 }
    let freeU : UserRec :=
      { id := "u2", subscriptionTier := .free, trialExpiresAt := none,
        subscriptionExpiresAt := none, snapshotsCreatedToday := 0,
        totalSnapshotsCreated := 0, emailsSummarizedToday := 0,
        totalEmailsSummarized := 0, lastSnapshotDate := none,
        lastUsageResetDay := some 5 }
    (createSnapshot plansW 50 tW (fun _ => .ok []) (fun _ => none) freeU
        emptyDb).result =
      .error ("Failed to create snapshot: " ++
        QuotaError.noActiveAccess.message) ∧
    (createSnapshot plansW 50 tW (fun _ => .ok []) (fun _ => none) freeU
        emptyDb).fetchCalled = false ∧
    incrementSnapshotUsage plansW tW freeU = .error
      (if (checkUsageLimits plansW tW freeU).2.isTrialExpired then
        .trialExpired
       else if (checkUsageLimits plansW tW freeU).2.isSubscriptionExpired then
        .subscriptionExpired
       else if !(checkUsageLimits plansW tW freeU).2.hasActiveAccess then
        .noActiveAccess
       else .dailyLimitReached) := by
  intro plansW tW freeU
  obtain ⟨h1, h2, _⟩ :=
    c2_quota_error_wrapped_in_priority_order.1 plansW 50 tW (fun _ => .ok [])
      (fun _ => none) freeU emptyDb .noActiveAccess rfl
  exact ⟨h1, h2,
    c2_quota_error_wrapped_in_priority_order.2 plansW tW freeU rfl⟩

/-- C5 counterexample: a free-tier user whose stale `subscriptionExpiresAt`
lies in the past gets the subscription-expired variant, not the
no-active-access one the claim promises for every free user. -/
theorem c5_counterexample_free_with_past_expiry :
    let plansW : SubscriptionTier → PlanLimits := fun _ =>
      { maxSnapshotsPerDay := 3, maxEmailsPerSnapshot := 10,
        totalSnapshotsAllowed := none }
    let tW : TimeModel := { now := 1000, day := 5 }
    let freeU : UserRec :=
      { id := "u2", subscriptionTier := .free, trialExpiresAt := none,
        subscriptionExpiresAt := some 500, snapshotsCreatedToday := 0,
        totalSnapshotsCreated := 0, emailsSummarizedToday := 0,
        totalEmailsSummarized := 0, lastSnapshotDate := none,
        lastUsageResetDay := some 5 }
    freeU.subscriptionTier = .free ∧
    (createSnapshot plansW 50 tW (fun _ => .ok []) (fun _ => none) freeU
        emptyDb).result =
      .error "Failed to create snapshot: Subscription has expired. Please renew to continue." ∧
    (∀ s : String,
      (createSnapshot plansW 50 tW (fun _ => .ok []) (fun _ => none) freeU
        emptyDb).result = .error s →
      s ≠ "Failed to create snapshot: " ++ QuotaError.noActiveAccess.message) := by
  refine ⟨rfl, rfl, ?_⟩
  intro s hs
  have : s = "Failed to create snapshot: Subscription has expired. Please renew to continue." := by
    have h2 : Except.error (ε := String) (α := CreateSnapshotResult)
        "Failed to create snapshot: Subscription has expired. Please renew to continue." = .error s := by
      rw [← hs]; rfl
    injection h2 with h3
    exact h3.symm
  rw [this]
  decide

/-- C5 amended: a free-tier user never has active access regardless of the
expiry fields, and `createSnapshot` always fails before any mailbox fetch
with a quota error — the no-active-access variant whenever
`subscriptionExpiresAt` is unset or in the future, the subscription-expired
variant when it is past. -/
theorem c5_free_tier_no_access :
    (∀ (u : UserRec) (now : ℤ), u.subscriptionTier = .free →
      hasActiveAccess u now = false) ∧
    (∀ (plans : SubscriptionTier → PlanLimits) (maxE : ℕ) (t : TimeModel)
        (fetch : ℕ → Except String (List Email))
        (σ : String → Option SummaryResult) (u : UserRec) (db : Db),
      u.subscriptionTier = .free →
        (createSnapshot plans maxE t fetch σ u db).fetchCalled = false ∧
        (createSnapshot plans maxE t fetch σ u db).result =
          .error ("Failed to create snapshot: " ++
            (match u.subscriptionExpiresAt with
             | some e =>
               if e ≤ t.now then QuotaError.subscriptionExpired
               else QuotaError.noActiveAccess
             | none => QuotaError.noActiveAccess).message)) ∧
    (∀ (plans : SubscriptionTier → PlanLimits) (maxE : ℕ) (t : TimeModel)
        (fetch : ℕ → Except String (List Email))
        (σ : String → Option SummaryResult) (u : UserRec) (db : Db),
      u.subscriptionTier = .free →
      (u.subscriptionExpiresAt = none ∨
        ∃ e, u.subscriptionExpiresAt = some e ∧ t.now < e) →
        (createSnapshot plans maxE t fetch σ u db).result =
          .error ("Failed to create snapshot: " ++
            QuotaError.noActiveAccess.message)) := by
  refine ⟨hasActiveAccess_free, ?_, ?_⟩
  · intro plans maxE t fetch σ u db h
    have hq := incrementSnapshotUsage_free plans t u h
    unfold createSnapshot
    rw [hq]
    exact ⟨rfl, rfl⟩
  · intro plans maxE t fetch σ u db h hsub
    have hq := incrementSnapshotUsage_free plans t u h
    have hq' : incrementSnapshotUsage plans t u =
        .error .noActiveAccess := by
      rw [hq]
      rcases hsub with hnone | ⟨e, hsome, hlt⟩
      · rw [hnone]
      · rw [hsome]
        dsimp only
        rw [if_neg (by omega)]
    unfold createSnapshot
    rw [hq']

/-- C5 witness: the amended theorem at a free user with an unexpired stale
subscription expiry. -/
theorem c5_witness :
    let plansW : SubscriptionTier → PlanLimits := fun _ =>
      { maxSnapshotsPerDay := 3, maxEmailsPerSnapshot := 10,
        totalSnapshotsAllowed := none }
    let tW : TimeModel := { now := 1000, day := 5 }
    let freeU : UserRec :=
      { id := "u2", subscriptionTier := .free, trialExpiresAt := none,
        subscriptionExpiresAt := some 2000, snapshotsCreatedToday := 0,
        totalSnapshotsCreated := 0, emailsSummarizedToday := 0,
        totalEmailsSummarized := 0, lastSnapshotDate := none,
        lastUsageResetDay := some 5 }
    hasActiveAccess freeU 1000 = false ∧
    (createSnapshot plansW 50 tW (fun _ => .ok []) (fun _ => none) freeU
        emptyDb).fetchCalled = false ∧
    (createSnapshot plansW 50 tW (fun _ => .ok []) (fun _ => none) freeU
        emptyDb).result =
      .error ("Failed to create snapshot: " ++
        QuotaError.noActiveAccess.message) := by
  intro plansW tW freeU
  exact ⟨c5_free_tier_no_access.1 freeU 1000 rfl,
    (c5_free_tier_no_access.2.1 plansW 50 tW (fun _ => .ok [])
      (fun _ => none) freeU emptyDb rfl).1,
    c5_free_tier_no_access.2.2 plansW 50 tW (fun _ => .ok [])
      (fun _ => none) freeU emptyDb rfl
      (Or.inr ⟨2000, rfl, by norm_num⟩)⟩

/-- C6: once the step-1 reservation has succeeded, no later outcome of
`createSnapshot` rolls it back — the final user row carries exactly one more
daily and one more lifetime snapshot than the (daily-reset) row the run
started from, also when the run fails. -/
theorem c6_quota_not_rolled_back (plans : SubscriptionTier → PlanLimits)
    (maxE : ℕ) (t : TimeModel) (fetch : ℕ → Except String (List Email))
    (σ : String → Option SummaryResult) (u0 : UserRec) (db0 : Db)
    (u1 : UserRec) (h1 : incrementSnapshotUsage plans t u0 = .ok u1)
    (h2 : ∀ r, (createSnapshot plans maxE t fetch σ u0 db0).result = .ok r →
      r.success = false) :
    (createSnapshot plans maxE t fetch σ u0 db0).user.snapshotsCreatedToday =
      (resetDailyUsageIfNeeded t u0).snapshotsCreatedToday + 1 ∧
    (createSnapshot plans maxE t fetch σ u0 db0).user.totalSnapshotsCreated =
      u0.totalSnapshotsCreated + 1 ∧
    (u0.lastUsageResetDay = some t.day →
      (createSnapshot plans maxE t fetch σ u0 db0).user.snapshotsCreatedToday
        = u0.snapshotsCreatedToday + 1) := by
  obtain ⟨ha, hb⟩ := createSnapshot_user_counters plans maxE t fetch σ u0 db0 h1
  obtain ⟨hc, hd, _, _⟩ := incrementSnapshotUsage_ok h1
  refine ⟨by rw [ha, hc], by rw [hb, hd], fun hsame => ?_⟩
  rw [ha, hc, reset_noop hsame]

/-- C6 witness: a pro user whose mailbox fetch returns nothing — the run
fails with the no-new-emails message yet both counters stay incremented. -/
theorem c6_witness :
    let plansW : SubscriptionTier → PlanLimits := fun _ =>
      { maxSnapshotsPerDay := 999, maxEmailsPerSnapshot := 10,
        totalSnapshotsAllowed := none }
    let tW : TimeModel := { now := 1000, day := 5 }
    let proU : UserRec :=
      { id := "u3", subscriptionTier := .pro, trialExpiresAt := none,
        subscriptionExpiresAt := none, snapshotsCreatedToday := 2,
        totalSnapshotsCreated := 7, emailsSummarizedToday := 0,
        totalEmailsSummarized := 0, lastSnapshotDate := none,
        lastUsageResetDay := some 5 }
    (createSnapshot plansW 50 tW (fun _ => .ok []) (fun _ => none) proU
        emptyDb).user.snapshotsCreatedToday = 2 + 1 ∧
    (createSnapshot plansW 50 tW (fun _ => .ok []) (fun _ => none) proU
        emptyDb).user.totalSnapshotsCreated = 7 + 1 := by
  intro plansW tW proU
  have hres : (createSnapshot plansW 50 tW (fun _ => .ok []) (fun _ => none)
      proU emptyDb).result = .ok
        { success := false, message := "No new unread emails found.",
          snapshotId := none, totalItems := none,
          newEmailsProcessed := none } := rfl
  have h2 : ∀ r, (createSnapshot plansW 50 tW (fun _ => .ok [])
      (fun _ => none) proU emptyDb).result = .ok r → r.success = false := by
    intro r hr
    rw [hres] at hr
    injection hr with h3
    rw [← h3]
  obtain ⟨-, hb, hcc⟩ := c6_quota_not_rolled_back plansW 50 tW
    (fun _ => .ok []) (fun _ => none) proU emptyDb _ rfl h2
  exact ⟨hcc rfl, hb⟩

/-- C3: every score of the scoring engine lies in `[0, 1]`; every snapshot
item the pipeline creates stores as `priorityLabel` exactly the threshold
mapping of its stored `priorityScore`; the mapping is the table
`0.85 → urgent`, `0.70 → high`, `0.40 → medium`, below `→ low`. -/
theorem c3_score_bounds_and_label_mapping :
    (∀ (labelIds : List String) (headers : List MessageHeader)
        (senderEmail : String) (sizeEstimate : ℤ),
      0 ≤ (calculateEnhancedImportance labelIds headers senderEmail
        sizeEstimate).score ∧
      (calculateEnhancedImportance labelIds headers senderEmail
        sizeEstimate).score ≤ 1) ∧
    (∀ (σ : String → Option SummaryResult) (sid : ℕ) (uid : UserId)
        (es : List Email) (db : Db),
      ∀ it ∈ (processEmailsToItems σ sid uid es db).1,
        it.priorityLabel = scoreToPriorityLabel it.priorityScore) ∧
    (∀ s : ℚ,
      (85/100 ≤ s → scoreToPriorityLabel s = .urgent) ∧
      (7/10 ≤ s → s < 85/100 → scoreToPriorityLabel s = .high) ∧
      (4/10 ≤ s → s < 7/10 → scoreToPriorityLabel s = .medium) ∧
      (s < 4/10 → scoreToPriorityLabel s = .low)) :=
  ⟨score_in_unit_interval,
   fun σ sid uid es db it hit =>
     (processEmailsToItems_shape σ sid uid es db it hit).2.1,
   scoreToPriorityLabel_spec⟩

/-- C3 witness: the bounds at a concrete input, and the label/score agreement
on the item created from one concrete email. -/
theorem c3_witness :
    let score0 := (calculateEnhancedImportance [] [] "a@b.c" 0).score
    let itemW : ItemRec :=
      { id := 1, snapshotId := 7, senderId := 0, messageId := "m1",
        summary := "ok", priorityScore := score0,
        priorityLabel := scoreToPriorityLabel score0 }
    (0 ≤ (calculateEnhancedImportance ["IMPORTANT"] [] "x@example.com" 0).score ∧
      (calculateEnhancedImportance ["IMPORTANT"] [] "x@example.com" 0).score ≤ 1) ∧
    itemW.priorityLabel = scoreToPriorityLabel itemW.priorityScore ∧
    scoreToPriorityLabel 1 = .urgent := by
  intro score0 itemW
  refine ⟨c3_score_bounds_and_label_mapping.1 ["IMPORTANT"] [] "x@example.com" 0,
    c3_score_bounds_and_label_mapping.2.1 (fun _ => some ⟨"ok", none⟩) 7 "u"
      [{ messageId := "m1", sender := "Ann", senderEmail := "a@b.c",
         subject := "s", snippet := none, body := "hello", labelIds := none,
         sizeEstimate := none, date := 0 }] emptyDb itemW ?_,
    (c3_score_bounds_and_label_mapping.2.2 1).1 (by norm_num)⟩
  exact List.mem_cons_self _ _

/-- C4: adding the `IMPORTANT` (marked-important) label never decreases the
score; and when the only other positive signals are the rule-1/rule-2 labels
(no header, domain, or size signal), adding a promotions category label caps
the score at 0.3, because rule 3's `min` clamp runs after rules 1–2. -/
theorem c4_mono_important_and_promo_clamp :
    (∀ (labelIds : List String) (headers : List MessageHeader)
        (senderEmail : String) (sizeEstimate : ℤ),
      (calculateEnhancedImportance labelIds headers senderEmail
        sizeEstimate).score ≤
      (calculateEnhancedImportance ("IMPORTANT" :: labelIds) headers
        senderEmail sizeEstimate).score) ∧
    (∀ (labelIds : List String) (headers : List MessageHeader)
        (senderEmail : String) (sizeEstimate : ℤ),
      (∀ l ∈ labelIds, l = "IMPORTANT" ∨ l = "STARRED") →
      (((findHeader headers "Importance").map strLower == some "high") ||
        ((findHeader headers "Priority").map strLower == some "urgent")) =
          false →
      xPriorityHigh (findHeader headers "X-Priority") = false →
      isTrustedDomain senderEmail = false →
      decide (50000 < sizeEstimate) = false →
      (calculateEnhancedImportance ("CATEGORY_PROMOTIONS" :: labelIds) headers
        senderEmail sizeEstimate).score ≤ 3/10) :=
  ⟨score_mono_in_important,
   fun ls hs em sz _ h4 h5 h6 h7 => promo_caps_score ls hs em sz h4 h5 h6 h7⟩

/-- C4 witness: both parts at concrete inputs — a starred mail does not lose
score when marked important, and a starred+important promotional mail with no
other signal scores at most 0.3. -/
theorem c4_witness :
    (calculateEnhancedImportance ["STARRED"] [] "" 0).score ≤
      (calculateEnhancedImportance ("IMPORTANT" :: ["STARRED"]) [] "" 0).score ∧
    (calculateEnhancedImportance
      ("CATEGORY_PROMOTIONS" :: ["IMPORTANT", "STARRED"]) [] "" 0).score ≤
      3/10 :=
  ⟨c4_mono_important_and_promo_clamp.1 ["STARRED"] [] "" 0,
   c4_mono_important_and_promo_clamp.2 ["IMPORTANT", "STARRED"] [] "" 0
     (by decide) (by decide) (by decide) (by decide) (by decide)⟩

/-- C10: every persisted item's score is the score computed with an empty
header list from the email's label/sender/size metadata (the pipeline passes
`[]` for headers); header lookup over an empty list finds nothing; and with
an empty header list the two rule-4 factors can never appear. -/
theorem c10_orchestrator_empty_headers :
    (∀ (σ : String → Option SummaryResult) (sid : ℕ) (uid : UserId)
        (es : List Email) (db : Db),
      ∀ it ∈ (processEmailsToItems σ sid uid es db).1,
        ∃ e ∈ es, it.messageId = e.messageId ∧
          it.priorityScore = (calculateEnhancedImportance (e.labelIds.getD [])
            [] e.senderEmail (e.sizeEstimate.getD 0)).score) ∧
    (∀ name : String, findHeader [] name = none) ∧
    (∀ (ls : List String) (em : String) (sz : ℤ),
      "high-priority-header" ∉ (calculateEnhancedImportance ls [] em sz).factors ∧
      "x-priority-high" ∉ (calculateEnhancedImportance ls [] em sz).factors) := by
  refine ⟨?_, fun _ => rfl, ?_⟩
  · intro σ sid uid es db it hit
    obtain ⟨_, _, e, he, hmsg, hscore⟩ :=
      processEmailsToItems_shape σ sid uid es db it hit
    exact ⟨e, he, hmsg, hscore⟩
  · intro ls em sz
    constructor <;> intro hmem <;>
      rcases factors_with_empty_headers ls em sz _ hmem with
        h | h | h | h | h | h | h <;> simp at h

/-- C10 witness: the item built from one concrete email stores the
empty-header score, and at a concrete input neither rule-4 factor appears. -/
theorem c10_witness :
    let score0 := (calculateEnhancedImportance ["IMPORTANT"] [] "a@b.c" 0).score
    let itemW : ItemRec :=
      { id := 1, snapshotId := 7, senderId := 0, messageId := "m1",
        summary := "ok", priorityScore := score0,
        priorityLabel := scoreToPriorityLabel score0 }
    let emailW : Email :=
      { messageId := "m1", sender := "Ann", senderEmail := "a@b.c",
        subject := "s", snippet := none, body := "hello",
        labelIds := some ["IMPORTANT"], sizeEstimate := none, date := 0 }
    (∃ e ∈ [emailW], itemW.messageId = e.messageId ∧
      itemW.priorityScore = (calculateEnhancedImportance (e.labelIds.getD [])
        [] e.senderEmail (e.sizeEstimate.getD 0)).score) ∧
    "high-priority-header" ∉
      (calculateEnhancedImportance ["IMPORTANT"] [] "a@b.c" 0).factors := by
  intro score0 itemW emailW
  refine ⟨c10_orchestrator_empty_headers.1 (fun _ => some ⟨"ok", none⟩) 7 "u"
    [emailW] emptyDb itemW ?_,
    (c10_orchestrator_empty_headers.2.2 ["IMPORTANT"] "a@b.c" 0).1⟩
  exact List.mem_cons_self _ _

end Gystify
